import Mathlib

/-!
Verification development for the RLox tree-walking Lox interpreter.

The Rust sources are shallowly embedded as follows.

* `Rc<T>` / `Rc<RefCell<T>>` sharing is modelled with explicit heaps: every
  allocation appends to a list and values carry the index.  `Rc::ptr_eq`
  becomes equality of indices.  `RefCell` mutation becomes an update of the
  heap list at the index.
* `f64` numbers are modelled as `Int` (no claim in scope depends on
  floating-point rounding, infinities or NaN).
* Fallible Rust code returning `Result<T, InterpreterError>` becomes
  `Except InterpreterError T`.  Divergence and panics (`unwrap` on `None`,
  out-of-fuel recursion) are modelled by an outer `Option`: `none` means the
  Rust program does not return normally from this evaluation (it loops or
  aborts the process), so there is no resulting state.
* Recursive evaluation is fuelled: every recursive call consumes one unit of
  fuel, and exhausted fuel yields `none`.  Any terminating Rust execution is
  reproduced exactly by all sufficiently large fuels.
-/

namespace RLox

/-- Token kinds.  Modelled from the spec: there is no `token_type.rs` under
`src/` (only uses of `crate::token_type::TokenType`); the spec lists the
grouping symbols, operator tokens, keywords, identifier/number/string
tokens, and the variant names are taken from their uses in `parser.rs`,
`interpreter.rs` and `scanner.rs`. -/
inductive TokenType where
  | LEFT_PAREN | RIGHT_PAREN | LEFT_BRACE | RIGHT_BRACE
  | COMMA | DOT | SEMICOLON
  | PLUS | MINUS | STAR | SLASH
  | BANG | BANG_EQUAL | EQUAL | EQUAL_EQUAL
  | GREATER | GREATER_EQUAL | LESS | LESS_EQUAL
  | IDENTIFIER | NUMBER | STRING
  | AND | CLASS | ELSE | FALSE | FOR | FUN | IF | NIL | OR
  | PRINT | RETURN | SUPER | THIS | TRUE | VAR | WHILE
  | EOF
  deriving DecidableEq, Repr

/-- Runtime values (`token_literal.rs` as used by `interpreter.rs`:
variants `LOX_NULL`, `LOX_BOOL`, `LOX_NUMBER`, `LOX_STRING`,
`LOX_CALLABLE`, `LOX_INSTANCE`).  `LOX_CALLABLE` and `LOX_INSTANCE` carry
the index of the shared `Rc` allocation in the respective heap; `f64` is
modelled as `Int`. -/
inductive TokenLiteral where
  | LOX_NULL
  | LOX_BOOL (b : Bool)
  | LOX_NUMBER (n : Int)
  | LOX_STRING (s : String)
  | LOX_CALLABLE (rc : Nat)
  | LOX_INSTANCE (rc : Nat)
  deriving DecidableEq, Repr

/-- `Token` from `token.rs`. -/
structure Token where
  token_type : TokenType
  lexeme : String
  literal : TokenLiteral
  line : Int
  deriving DecidableEq, Repr

/-- `InterpreterError` from `interpreter.rs`: a genuine runtime error or the
return signal used for non-local `return`. -/
inductive InterpreterError where
  | OperatorError (line : Int) (err_msg : String)
  | Return (value : TokenLiteral)
  deriving DecidableEq, Repr

/-- `Expr` from `expression.rs`. -/
inductive Expr where
  | Assign (name : Token) (value : Expr) (id : Nat)
  | Binary (left : Expr) (operator : Token) (right : Expr)
  | Call (callee : Expr) (paren : Token) (arguments : List Expr)
  | Get (object : Expr) (name : Token) (id : Nat)
  | Grouping (expression : Expr)
  | Literal (value : TokenLiteral)
  | Logical (left : Expr) (operator : Token) (right : Expr)
  | Set (object : Expr) (name : Token) (value : Expr) (id : Nat)
  | Super (keyword : Token) (method : Token) (id : Nat)
  | This (name : Token) (id : Nat)
  | Unary (operator : Token) (right : Expr)
  | Variable (name : Token) (id : Nat)
  deriving Repr

mutual
/-- `Stmt` from `statement.rs`, together with the `Class` variant matched by
`interpreter.rs` (`Class { name, methods, superclass }`). -/
inductive Stmt where
  | Block (statements : List Stmt)
  | Class (name : Token) (methods : List Stmt) (superclass : Option Expr)
  | Expression (expression : Expr)
  | Function (ptr : FunctionObject)
  | If (expression : Expr) (then_branch : Stmt) (else_branch : Stmt)
  | Print (expression : Expr)
  | Return (keyword : Token) (value : Expr)
  | Var (name : Token) (initializer : Expr)
  | While (expression : Expr) (body : Stmt)
  deriving Repr

/-- `FunctionObject` from `function_object.rs` (shared behind `Rc` in Rust;
identity of the `Rc` is never observed, so it is inlined by value). -/
inductive FunctionObject where
  | mk (name : Token) (params : List Token) (body : List Stmt)
  deriving Repr
end

def FunctionObject.name : FunctionObject → Token
  | .mk n _ _ => n

def FunctionObject.params : FunctionObject → List Token
  | .mk _ p _ => p

def FunctionObject.body : FunctionObject → List Stmt
  | .mk _ _ b => b

/-- `LoxFunction` from `function.rs`.  In Rust `declaration` is a
`Stmt::Function { ptr }`; every access unwraps the `Function` variant, so the
payload `FunctionObject` is stored directly.  `closure` is the index of the
captured environment frame. -/
structure LoxFunction where
  declaration : FunctionObject
  closure : Nat
  is_initializer : Bool
  deriving Repr

/-- `LoxClass` from `class.rs`; `superclass` is the index of the superclass
in the class heap. -/
structure LoxClass where
  name : String
  superclass : Option Nat
  methods : List (String × LoxFunction)
  deriving Repr

/-- `LoxCallable` from `callable.rs`.  One heap entry per `Rc<LoxCallable>`
allocation; `Rc::ptr_eq` is equality of heap indices. -/
inductive LoxCallable where
  | Native
  | UserFunction (f : LoxFunction)
  | ClassConstructor (classId : Nat)
  deriving Repr

/-- `LoxInstance` from `class_instance.rs`: the class reference and the
mutable field map (`RefCell<HashMap<..>>` modelled as an association list in
the instance heap). -/
structure LoxInstance where
  classId : Nat
  fields : List (String × TokenLiteral)
  deriving Repr

/-- An environment frame (`Environment` from `environment.rs`): the mutable
name-to-value map and the optional shared reference to the enclosing frame
(an index into the environment heap). -/
structure Frame where
  values : List (String × TokenLiteral)
  enclosing : Option Nat
  deriving Repr

/-- `Environment::default()` (derived `Default`): empty map, no enclosing. -/
def Frame.defaultFrame : Frame := ⟨[], none⟩

/-- `HashMap::get` on the association-list model. -/
def lookupAssoc : List (String × TokenLiteral) → String → Option TokenLiteral
  | [], _ => none
  | (k, v) :: rest, key => if k = key then some v else lookupAssoc rest key

/-- `HashMap::insert` on the association-list model: replace the binding if
the key is present, otherwise add it. -/
def insertAssoc : List (String × TokenLiteral) → String → TokenLiteral →
    List (String × TokenLiteral)
  | [], key, v => [(key, v)]
  | (k, w) :: rest, key, v =>
    if k = key then (k, v) :: rest else (k, w) :: insertAssoc rest key v

/-- `Environment::define` (`environment.rs` line 24): insert into the frame's
own map, never failing and replacing any existing binding. -/
def envDefine (envs : List Frame) (e : Nat) (name : String) (v : TokenLiteral) :
    List Frame :=
  match envs.get? e with
  | none => envs
  | some fr => envs.set e { fr with values := insertAssoc fr.values name v }

/-- `Environment::get` (`environment.rs` line 28): look in the frame's own
map, otherwise recurse into the enclosing frame; error only when there is no
enclosing frame.  Fuelled; the wrapper `envGet` supplies fuel larger than
any acyclic chain in the heap. -/
def envGetLoop : Nat → List Frame → Nat → Token → Option (Except InterpreterError TokenLiteral)
  | 0, _, _, _ => none
  | fuel + 1, envs, e, name =>
    match envs.get? e with
    | none => none
    | some fr =>
      match lookupAssoc fr.values name.lexeme with
      | some v => some (.ok v)
      | none =>
        match fr.enclosing with
        | some enc => envGetLoop fuel envs enc name
        | none =>
          some (.error (.OperatorError name.line
            ("Undefined variable '" ++ name.lexeme ++ "'")))

def envGet (envs : List Frame) (e : Nat) (name : Token) :
    Option (Except InterpreterError TokenLiteral) :=
  envGetLoop (envs.length + 1) envs e name

/-- `Environment::assign` (`environment.rs` line 58): update the binding in
the frame's own map if present, otherwise recurse into the enclosing frame;
error (with a trailing period, unlike `get`) when no frame binds the name. -/
def envAssignLoop : Nat → List Frame → Nat → Token → TokenLiteral →
    Option (List Frame × Except InterpreterError Unit)
  | 0, _, _, _, _ => none
  | fuel + 1, envs, e, name, v =>
    match envs.get? e with
    | none => none
    | some fr =>
      match lookupAssoc fr.values name.lexeme with
      | some _ =>
        some (envs.set e { fr with values := insertAssoc fr.values name.lexeme v }, .ok ())
      | none =>
        match fr.enclosing with
        | some enc => envAssignLoop fuel envs enc name v
        | none =>
          some (envs, .error (.OperatorError name.line
            ("Undefined variable '" ++ name.lexeme ++ "'.")))

def envAssign (envs : List Frame) (e : Nat) (name : Token) (v : TokenLiteral) :
    Option (List Frame × Except InterpreterError Unit) :=
  envAssignLoop (envs.length + 1) envs e name v

/-- The loop of `Environment::ancestor` (`environment.rs` line 50):
`for _ in 1..distance { env = env.deref().take().enclosing.unwrap().clone(); }`.
Each iteration performs `RefCell::take`, replacing the visited frame with
`Environment::default()` (empty map, no enclosing) before stepping to its
former enclosing frame.  `unwrap` on a missing enclosing frame panics
(`none`). -/
def ancestorLoop : Nat → List Frame → Nat → Option (List Frame × Nat)
  | 0, envs, env => some (envs, env)
  | k + 1, envs, env =>
    match envs.get? env with
    | none => none
    | some fr =>
      let envs' := envs.set env Frame.defaultFrame
      match fr.enclosing with
      | none => none
      | some nxt => ancestorLoop k envs' nxt

/-- `Environment::ancestor` (`environment.rs` line 50): start from
`self.enclosing.clone().unwrap()` and iterate `1..distance`, i.e.
`distance - 1` further (destructive) steps. -/
def ancestor (envs : List Frame) (e : Nat) (distance : Nat) :
    Option (List Frame × Nat) :=
  match (envs.get? e).bind (fun fr => fr.enclosing) with
  | none => none
  | some env0 => ancestorLoop (distance - 1) envs env0

/-- `Environment::get_at` (`environment.rs` line 43): at distance 0 it is the
chained `get` on the current frame; otherwise walk via `ancestor` and run the
chained `get` from the resulting frame. -/
def envGetAt (envs : List Frame) (e : Nat) (distance : Nat) (name : Token) :
    Option (List Frame × Except InterpreterError TokenLiteral) :=
  if distance = 0 then
    (envGet envs e name).map (fun r => (envs, r))
  else
    match ancestor envs e distance with
    | none => none
    | some (envs', target) => (envGet envs' target name).map (fun r => (envs', r))

/-- `Environment::assign_at` (`environment.rs` line 76): at distance 0 it is
the chained `assign` on the current frame; otherwise walk via `ancestor` and
run the chained `assign` from the resulting frame. -/
def envAssignAt (envs : List Frame) (e : Nat) (distance : Nat) (name : Token)
    (v : TokenLiteral) : Option (List Frame × Except InterpreterError Unit) :=
  if distance = 0 then
    envAssign envs e name v
  else
    match ancestor envs e distance with
    | none => none
    | some (envs', target) => envAssign envs' target name v

/-- The interpreter state (`Interpreter` from `interpreter.rs` plus the
heaps standing for the `Rc` allocations made during evaluation, and the
text printed to standard output). -/
structure InterpState where
  envs : List Frame
  currEnv : Nat
  globalEnv : Nat
  locals : List (Nat × Nat)
  callables : List LoxCallable
  instances : List LoxInstance
  classes : List LoxClass
  output : List String
  deriving Repr

/-- `HashMap<usize, usize>::get` on the resolver-distance map `locals`. -/
def lookupLocals : List (Nat × Nat) → Nat → Option Nat
  | [], _ => none
  | (k, d) :: rest, id => if k = id then some d else lookupLocals rest id

/-- Method-map lookup (`HashMap<String, Rc<LoxFunction>>::get`). -/
def lookupFn : List (String × LoxFunction) → String → Option LoxFunction
  | [], _ => none
  | (k, f) :: rest, key => if k = key then some f else lookupFn rest key

/-- Method-map insert (`HashMap::insert`): replace or add. -/
def insertFn : List (String × LoxFunction) → String → LoxFunction →
    List (String × LoxFunction)
  | [], key, f => [(key, f)]
  | (k, g) :: rest, key, f =>
    if k = key then (k, f) :: rest else (k, g) :: insertFn rest key f

/-- `LoxClass::find_method` (`class.rs` line 49): look in the class's own
method table, then recurse into the superclass; first hit wins.  Fuelled by
the size of the class heap (superclass chains built by the interpreter are
acyclic, so this fuel is never exhausted on reachable states). -/
def findMethodLoop : Nat → List LoxClass → Nat → String → Option LoxFunction
  | 0, _, _, _ => none
  | fuel + 1, classes, c, key =>
    match classes.get? c with
    | none => none
    | some cls =>
      match lookupFn cls.methods key with
      | some m => some m
      | none =>
        match cls.superclass with
        | some s => findMethodLoop fuel classes s key
        | none => none

def findMethod (classes : List LoxClass) (c : Nat) (key : String) :
    Option LoxFunction :=
  findMethodLoop (classes.length + 1) classes c key

/-- `LoxFunction::arity` (`function.rs` line 60). -/
def LoxFunction.arity (f : LoxFunction) : Nat :=
  f.declaration.params.length

/-- `LoxClass::arity` (`class.rs` line 42): the arity of `init` when the
class (or a superclass) has one, otherwise 0. -/
def classArity (classes : List LoxClass) (cid : Nat) : Nat :=
  match findMethod classes cid "init" with
  | some ini => ini.arity
  | none => 0

/-- `LoxCallable::arity` (`callable.rs` line 23); the only native function,
`clock`, has arity 0. -/
def callableArity (classes : List LoxClass) : LoxCallable → Nat
  | .Native => 0
  | .UserFunction f => f.arity
  | .ClassConstructor cid => classArity classes cid

/-- `LoxFunction::bind` (`function.rs` line 67): allocate a fresh frame whose
parent is the original closure, binding `this` to the instance, and return a
new `LoxFunction` sharing the declaration and `is_initializer`. -/
def LoxFunction.bind (f : LoxFunction) (envs : List Frame) (inst : Nat) :
    List Frame × LoxFunction :=
  (envs ++ [⟨[("this", TokenLiteral.LOX_INSTANCE inst)], some f.closure⟩],
   { declaration := f.declaration, closure := envs.length,
     is_initializer := f.is_initializer })

/-- `LoxInstance::get` (`class_instance.rs` line 22): fields first, then
class methods; a method hit allocates a fresh bound method wrapped in a
fresh `Rc<LoxCallable>`; otherwise `Undefined property`. -/
def instanceGet (st : InterpState) (iid : Nat) (name : Token) :
    Option (InterpState × Except InterpreterError TokenLiteral) :=
  match st.instances.get? iid with
  | none => none
  | some inst =>
    match lookupAssoc inst.fields name.lexeme with
    | some v => some (st, .ok v)
    | none =>
      match findMethod st.classes inst.classId name.lexeme with
      | some m =>
        let (envs', f) := m.bind st.envs iid
        some ({ st with envs := envs'
                        callables := st.callables ++ [LoxCallable.UserFunction f] },
          .ok (.LOX_CALLABLE st.callables.length))
      | none =>
        some (st, .error (.OperatorError name.line
          ("Undefined property '" ++ name.lexeme ++ "'")))

/-- `LoxInstance::set` (`class_instance.rs` line 37): insert into the
instance's field map (always succeeds). -/
def instanceSet (st : InterpState) (iid : Nat) (name : Token)
    (v : TokenLiteral) : InterpState :=
  match st.instances.get? iid with
  | none => st
  | some inst =>
    let inst' : LoxInstance :=
      { inst with fields := insertAssoc inst.fields name.lexeme v }
    { st with instances := st.instances.set iid inst' }

/-- `Interpreter::is_truthy` (`interpreter.rs` line 565). -/
def isTruthy : TokenLiteral → Bool
  | .LOX_BOOL b => b
  | .LOX_NULL => false
  | _ => true

/-- `Interpreter::is_equal` (`interpreter.rs` line 573).  Rust compares
`Rc<String>` by contents; `f64` is modelled as `Int`. -/
def isEqual : TokenLiteral → TokenLiteral → Bool
  | .LOX_NUMBER l, .LOX_NUMBER r => l == r
  | .LOX_STRING l, .LOX_STRING r => l == r
  | .LOX_BOOL l, .LOX_BOOL r => l == r
  | .LOX_NULL, .LOX_NULL => true
  | _, _ => false

/-- The operand dispatch of `Interpreter::visit_binary_expr`
(`interpreter.rs` lines 290-403), factored over the two evaluated operand
values.  `Rc::ptr_eq` on callables and instances is equality of heap
indices; `f64` arithmetic is modelled on `Int`. -/
def binaryOperate (operator : Token) (left right : TokenLiteral) :
    Except InterpreterError TokenLiteral :=
  match left, right with
  | .LOX_NUMBER l, .LOX_NUMBER r =>
    match operator.token_type with
    | .PLUS => .ok (.LOX_NUMBER (l + r))
    | .MINUS => .ok (.LOX_NUMBER (l - r))
    | .STAR => .ok (.LOX_NUMBER (l * r))
    | .SLASH => .ok (.LOX_NUMBER (l / r))
    | .EQUAL_EQUAL => .ok (.LOX_BOOL (isEqual (.LOX_NUMBER l) (.LOX_NUMBER r)))
    | .BANG_EQUAL => .ok (.LOX_BOOL (!isEqual (.LOX_NUMBER l) (.LOX_NUMBER r)))
    | .GREATER => .ok (.LOX_BOOL (decide (l > r)))
    | .GREATER_EQUAL => .ok (.LOX_BOOL (decide (l ≥ r)))
    | .LESS => .ok (.LOX_BOOL (decide (l < r)))
    | .LESS_EQUAL => .ok (.LOX_BOOL (decide (l ≤ r)))
    | _ => .error (.OperatorError operator.line
        "Unrecognized operator passed between two numbers")
  | .LOX_STRING l, .LOX_STRING r =>
    match operator.token_type with
    | .PLUS => .ok (.LOX_STRING (l ++ r))
    | .EQUAL_EQUAL => .ok (.LOX_BOOL (isEqual (.LOX_STRING l) (.LOX_STRING r)))
    | .BANG_EQUAL => .ok (.LOX_BOOL (!isEqual (.LOX_STRING l) (.LOX_STRING r)))
    | _ => .error (.OperatorError operator.line
        "Non-concatenating operator passed between two strings")
  | .LOX_BOOL l, .LOX_BOOL r =>
    match operator.token_type with
    | .EQUAL_EQUAL => .ok (.LOX_BOOL (isEqual (.LOX_BOOL l) (.LOX_BOOL r)))
    | .BANG_EQUAL => .ok (.LOX_BOOL (!isEqual (.LOX_BOOL l) (.LOX_BOOL r)))
    | _ => .error (.OperatorError operator.line
        "Non-equality operators passed between two bools")
  | .LOX_NULL, .LOX_NULL =>
    match operator.token_type with
    | .EQUAL_EQUAL => .ok (.LOX_BOOL (isEqual .LOX_NULL .LOX_NULL))
    | .BANG_EQUAL => .ok (.LOX_BOOL (!isEqual .LOX_NULL .LOX_NULL))
    | _ => .error (.OperatorError operator.line
        "Non-equality operators passed between two nils")
  | .LOX_CALLABLE l, .LOX_CALLABLE r =>
    match operator.token_type with
    | .EQUAL_EQUAL => .ok (.LOX_BOOL (l == r))
    | .BANG_EQUAL => .ok (.LOX_BOOL (!(l == r)))
    | _ => .error (.OperatorError operator.line
        "Non-equality operators passed between two function pointers")
  | .LOX_INSTANCE l, .LOX_INSTANCE r =>
    match operator.token_type with
    | .EQUAL_EQUAL => .ok (.LOX_BOOL (l == r))
    | .BANG_EQUAL => .ok (.LOX_BOOL (!(l == r)))
    | _ => .error (.OperatorError operator.line
        "Non-equality operators passed between two class instances")
  | _, _ =>
    match operator.token_type with
    | .EQUAL_EQUAL => .ok (.LOX_BOOL false)
    | .BANG_EQUAL => .ok (.LOX_BOOL true)
    | _ => .error (.OperatorError operator.line "Mismatched types operated on")

/-- The `Display` instances used by `visit_print_stmt` (`println!`), over
the heaps for callables and instances. -/
def displayLit (st : InterpState) : TokenLiteral → String
  | .LOX_STRING s => s
  | .LOX_NUMBER n => toString n
  | .LOX_BOOL b => if b then "true" else "false"
  | .LOX_NULL => "nil"
  | .LOX_CALLABLE c =>
    match st.callables.get? c with
    | some .Native => "<native fn>"
    | some (.UserFunction f) => "<fn " ++ f.declaration.name.lexeme ++ ">"
    | some (.ClassConstructor cid) =>
      match st.classes.get? cid with
      | some cls => cls.name
      | none => ""
    | none => ""
  | .LOX_INSTANCE i =>
    match (st.instances.get? i).bind (fun inst => st.classes.get? inst.classId) with
    | some cls => cls.name ++ " instance"
    | none => ""

/-- The parameter-binding loop in `LoxFunction::call`:
`for (param_name, value) in zip(params, arguments) { environment.define(..) }`. -/
def bindParams (params : List Token) (args : List TokenLiteral) :
    List (String × TokenLiteral) :=
  (params.zip args).foldl (fun acc pv => insertAssoc acc pv.1.lexeme pv.2) []

/-- The method-table construction loop of `visit_class_stmt`
(`interpreter.rs` lines 142-161): every member must be a `Function`
statement; each becomes a `LoxFunction` closing over the current frame with
`is_initializer` true exactly for methods named `init`. -/
def buildClassMethods (line : Int) (env : Nat) :
    List Stmt → List (String × LoxFunction) →
    Except InterpreterError (List (String × LoxFunction))
  | [], acc => .ok acc
  | .Function ptr :: rest, acc =>
    buildClassMethods line env rest
      (insertFn acc ptr.name.lexeme
        ⟨ptr, env, ptr.name.lexeme == "init"⟩)
  | _ :: _, _ =>
    .error (.OperatorError line "Non-method objects found in class body")

/-- The dummy `this` token built in `LoxFunction::call` (line 43):
`Token { EOF, "this", line 0, LOX_NULL }`. -/
def dummyThisFn : Token := ⟨.EOF, "this", .LOX_NULL, 0⟩

/-- The dummy `this` token built in `visit_super_expr` (line 548):
`Token { NIL, "this", line -1, LOX_NULL }`. -/
def dummyThisSuper : Token := ⟨.NIL, "this", .LOX_NULL, -1⟩

/-- Evaluation outcome: `none` when the Rust program does not return from
this evaluation (unbounded recursion, or a panic on `unwrap`/indexing). -/
abbrev EvalOut := Option (InterpState × Except InterpreterError TokenLiteral)

mutual

/-- `Interpreter::accept_expr` (`interpreter.rs` line 46) together with the
`visit_*_expr` visitors it dispatches to; each arm is labelled with the
visitor it embeds. -/
def acceptExpr : Nat → InterpState → Expr → EvalOut
  | 0, _, _ => none
  | fuel + 1, st, e =>
    match e with
    -- visit_literal_expr (line 256)
    | .Literal v => some (st, .ok v)
    -- visit_grouping_expr (line 277)
    | .Grouping inner => acceptExpr fuel st inner
    -- visit_unary_expr (line 444)
    | .Unary operator right =>
      match acceptExpr fuel st right with
      | none => none
      | some (st1, .error e) => some (st1, .error e)
      | some (st1, .ok rv) =>
        match operator.token_type with
        | .MINUS =>
          match rv with
          | .LOX_NUMBER n => some (st1, .ok (.LOX_NUMBER (-n)))
          | _ => some (st1, .error (.OperatorError operator.line
              "Minus operator used on non-numerical operand"))
        | .BANG => some (st1, .ok (.LOX_BOOL (!isTruthy rv)))
        | _ => none
    -- visit_binary_expr (line 284): both operands first, left before right
    | .Binary left operator right =>
      match acceptExpr fuel st left with
      | none => none
      | some (st1, .error e) => some (st1, .error e)
      | some (st1, .ok lv) =>
        match acceptExpr fuel st1 right with
        | none => none
        | some (st2, .error e) => some (st2, .error e)
        | some (st2, .ok rv) => some (st2, binaryOperate operator lv rv)
    -- visit_logical_expr (line 263): short-circuit
    | .Logical left operator right =>
      match acceptExpr fuel st left with
      | none => none
      | some (st1, .error e) => some (st1, .error e)
      | some (st1, .ok lv) =>
        match isTruthy lv, operator.token_type with
        | true, .OR => some (st1, .ok lv)
        | false, .AND => some (st1, .ok lv)
        | _, _ => acceptExpr fuel st1 right
    -- visit_variable_expr / visit_this_expr via lookup_variable (line 468)
    | .Variable name id | .This name id =>
      match lookupLocals st.locals id with
      | some distance =>
        match envGetAt st.envs st.currEnv distance name with
        | none => none
        | some (envs', r) => some ({ st with envs := envs' }, r)
      | none =>
        match envGet st.envs st.globalEnv name with
        | none => none
        | some r => some (st, r)
    -- visit_assign_expr via assign_variable (line 484)
    | .Assign name value id =>
      match acceptExpr fuel st value with
      | none => none
      | some (st1, .error e) => some (st1, .error e)
      | some (st1, .ok v) =>
        match lookupLocals st1.locals id with
        | some distance =>
          match envAssignAt st1.envs st1.currEnv distance name v with
          | none => none
          | some (envs', .error e) => some ({ st1 with envs := envs' }, .error e)
          | some (envs', .ok _) => some ({ st1 with envs := envs' }, .ok v)
        | none =>
          match envAssign st1.envs st1.globalEnv name v with
          | none => none
          | some (envs', .error e) => some ({ st1 with envs := envs' }, .error e)
          | some (envs', .ok _) => some ({ st1 with envs := envs' }, .ok v)
    -- visit_call_expr (line 409): callee, then arguments in source order
    | .Call callee paren arguments =>
      match acceptExpr fuel st callee with
      | none => none
      | some (st1, .error e) => some (st1, .error e)
      | some (st1, .ok cv) =>
        match evalArgs fuel st1 arguments with
        | none => none
        | some (st2, .error e) => some (st2, .error e)
        | some (st2, .ok params) => callDispatch fuel st2 cv params paren
    -- visit_get_expr (line 500)
    | .Get object name _ =>
      match acceptExpr fuel st object with
      | none => none
      | some (st1, .error e) => some (st1, .error e)
      | some (st1, .ok ov) =>
        match ov with
        | .LOX_INSTANCE iid => instanceGet st1 iid name
        | _ => some (st1, .error (.OperatorError name.line
            "Only instances have properties."))
    -- visit_set_expr (line 516): object first, then value, then the write
    | .Set object name value _ =>
      match acceptExpr fuel st object with
      | none => none
      | some (st1, .error e) => some (st1, .error e)
      | some (st1, .ok ov) =>
        match ov with
        | .LOX_INSTANCE iid =>
          match acceptExpr fuel st1 value with
          | none => none
          | some (st2, .error e) => some (st2, .error e)
          | some (st2, .ok v) => some (instanceSet st2 iid name v, .ok v)
        | _ => some (st1, .error (.OperatorError name.line
            "Only instances have fields."))
    -- visit_super_expr (line 536); `*distance - 1` underflows (panics) at
    -- distance 0, and a missing resolver entry makes `unwrap` panic
    | .Super keyword method id =>
      match lookupLocals st.locals id with
      | none => none
      | some distance =>
        match envGetAt st.envs st.currEnv distance keyword with
        | none => none
        | some (envs1, .error e) => some ({ st with envs := envs1 }, .error e)
        | some (envs1, .ok sv) =>
          match sv with
          | .LOX_INSTANCE scWrap =>
            match distance with
            | 0 => none
            | d + 1 =>
              match envGetAt envs1 st.currEnv d dummyThisSuper with
              | none => none
              | some (envs2, .error e) => some ({ st with envs := envs2 }, .error e)
              | some (envs2, .ok tv) =>
                match tv with
                | .LOX_INSTANCE inst =>
                  let st2 := { st with envs := envs2 }
                  match st2.instances.get? scWrap with
                  | none => none
                  | some wrapper =>
                    match findMethod st2.classes wrapper.classId method.lexeme with
                    | none => some (st2, .error (.OperatorError method.line
                        ("Undefined property '" ++ method.lexeme ++ "'")))
                    | some m =>
                      let (envs3, f) := m.bind st2.envs inst
                      some ({ st2 with envs := envs3
                                       callables := st2.callables ++ [LoxCallable.UserFunction f] },
                        .ok (.LOX_CALLABLE st2.callables.length))
                | _ => none
          | _ => none
termination_by structural fuel => fuel

/-- The argument-evaluation loop in `visit_call_expr` (lines 413-416). -/
def evalArgs : Nat → InterpState → List Expr →
    Option (InterpState × Except InterpreterError (List TokenLiteral))
  | 0, _, _ => none
  | _ + 1, st, [] => some (st, .ok [])
  | fuel + 1, st, a :: rest =>
    match acceptExpr fuel st a with
    | none => none
    | some (st1, .error e) => some (st1, .error e)
    | some (st1, .ok v) =>
      match evalArgs fuel st1 rest with
      | none => none
      | some (st2, .error e) => some (st2, .error e)
      | some (st2, .ok vs) => some (st2, .ok (v :: vs))
termination_by structural fuel => fuel

/-- The callee dispatch of `visit_call_expr` (lines 418-438): require a
callable, check arity, append the class value itself for class
constructors, then invoke `LoxCallable::call`. -/
def callDispatch : Nat → InterpState → TokenLiteral → List TokenLiteral →
    Token → EvalOut
  | 0, _, _, _, _ => none
  | fuel + 1, st, callee, params, paren =>
    match callee with
    | .LOX_CALLABLE c =>
      match st.callables.get? c with
      | none => none
      | some callable =>
        if callableArity st.classes callable = params.length then
          let params' :=
            match callable with
            | .ClassConstructor _ => params ++ [TokenLiteral.LOX_CALLABLE c]
            | _ => params
          callableCall fuel st c params'
        else
          some (st, .error (.OperatorError paren.line
            ("Expected " ++ toString (callableArity st.classes callable) ++
             " arguments but got " ++ toString params.length ++ ".")))
    | _ => some (st, .error (.OperatorError paren.line
        "Can only call functions and class instances"))
termination_by structural fuel => fuel

/-- `LoxCallable::call` (`callable.rs` line 16).  The native `clock` reads
the wall clock and is outside the embedding (`none`). -/
def callableCall : Nat → InterpState → Nat → List TokenLiteral → EvalOut
  | 0, _, _, _ => none
  | fuel + 1, st, c, args =>
    match st.callables.get? c with
    | none => none
    | some .Native => none
    | some (.UserFunction f) => loxFunctionCall fuel st f args
    | some (.ClassConstructor cid) => loxClassCall fuel st cid args
termination_by structural fuel => fuel

/-- `LoxFunction::call` (`function.rs` line 30): fresh frame over the
closure with parameters bound in order, execute the body as a block, then:
initializers return the `this` binding of the closure regardless of the
block's outcome; otherwise a `Return` signal is caught as the return value
and other errors propagate. -/
def loxFunctionCall : Nat → InterpState → LoxFunction → List TokenLiteral → EvalOut
  | 0, _, _, _ => none
  | fuel + 1, st, f, args =>
    let envId := st.envs.length
    let callFrame : Frame := ⟨bindParams f.declaration.params args, some f.closure⟩
    let st1 := { st with envs := st.envs ++ [callFrame] }
    match executeBlock fuel st1 f.declaration.body envId with
    | none => none
    | some (st2, blockResult) =>
      if f.is_initializer then
        match envGetAt st2.envs f.closure 0 dummyThisFn with
        | none => none
        | some (envs', r) => some ({ st2 with envs := envs' }, r)
      else
        match blockResult with
        | .error (.Return lit) => some (st2, .ok lit)
        | .ok v => some (st2, .ok v)
        | .error e => some (st2, .error e)
termination_by structural fuel => fuel

/-- `LoxClass::call` (`class.rs` line 23): the last argument must be the
class constructor value itself (pushed by `visit_call_expr`); create a
fresh instance, bind and invoke `init` when present (errors propagate via
`?`), and return the instance. -/
def loxClassCall : Nat → InterpState → Nat → List TokenLiteral → EvalOut
  | 0, _, _, _ => none
  | fuel + 1, st, cid, args =>
    match args.getLast? with
    | some (.LOX_CALLABLE cref) =>
      match st.callables.get? cref with
      | some (.ClassConstructor cls) =>
        let iid := st.instances.length
        let st1 := { st with instances := st.instances ++ [⟨cls, []⟩] }
        match findMethod st1.classes cid "init" with
        | some ini =>
          let (envs', bound) := ini.bind st1.envs iid
          let st2 := { st1 with envs := envs' }
          match loxFunctionCall fuel st2 bound args with
          | none => none
          | some (st3, .error e) => some (st3, .error e)
          | some (st3, .ok _) => some (st3, .ok (.LOX_INSTANCE iid))
        | none => some (st1, .ok (.LOX_INSTANCE iid))
      | _ => none
    | _ => none
termination_by structural fuel => fuel

/-- `Interpreter::accept_statement` (`interpreter.rs` line 63) together with
the `visit_*_stmt` visitors; each arm is labelled with the visitor it
embeds. -/
def acceptStatement : Nat → InterpState → Stmt → EvalOut
  | 0, _, _ => none
  | fuel + 1, st, s =>
    match s with
    -- visit_block_stmt (line 78): fresh child frame, then execute_block
    | .Block statements =>
      let envId := st.envs.length
      let st1 := { st with envs := st.envs ++ [⟨[], some st.currEnv⟩] }
      match executeBlock fuel st1 statements envId with
      | none => none
      | some (st2, .error e) => some (st2, .error e)
      | some (st2, .ok _) => some (st2, .ok .LOX_NULL)
    -- visit_class_stmt (line 114)
    | .Class name methods superclass =>
      let superRes : Option (InterpState × Except InterpreterError (Option Nat)) :=
        match superclass with
        | none => some (st, .ok none)
        | some sexpr =>
          match acceptExpr fuel st sexpr with
          | none => none
          | some (st1, .ok (.LOX_CALLABLE c)) =>
            match st1.callables.get? c with
            | some (.ClassConstructor cls) => some (st1, .ok (some cls))
            | _ => some (st1, .error (.OperatorError name.line
                "Superclass must be a class"))
          -- the catch-all arm of the Rust match also converts evaluation
          -- errors into "Superclass must be a class"
          | some (st1, _) => some (st1, .error (.OperatorError name.line
              "Superclass must be a class"))
      match superRes with
      | none => none
      | some (st1, .error e) => some (st1, .error e)
      | some (st1, .ok scls) =>
        let st2 :=
          { st1 with envs := envDefine st1.envs st1.currEnv name.lexeme .LOX_NULL }
        let st3 :=
          match scls with
          | none => st2
          | some cls =>
            let envId := st2.envs.length
            let superFrame : Frame := ⟨[], some st2.currEnv⟩
            let withEnv := { st2 with envs := st2.envs ++ [superFrame], currEnv := envId }
            let iid := withEnv.instances.length
            let wrapper : LoxInstance := ⟨cls, []⟩
            let withInst := { withEnv with instances := withEnv.instances ++ [wrapper] }
            let envs2 := envDefine withInst.envs withInst.currEnv "super" (.LOX_INSTANCE iid)
            { withInst with envs := envs2 }
        match buildClassMethods name.line st3.currEnv methods [] with
        | .error e => some (st3, .error e)
        | .ok classMethods =>
          let popped : Option InterpState :=
            match scls with
            | none => some st3
            | some _ =>
              match (st3.envs.get? st3.currEnv).bind (fun fr => fr.enclosing) with
              | none => none
              | some enc => some { st3 with currEnv := enc }
          match popped with
          | none => none
          | some st4 =>
            let classId := st4.classes.length
            let newClass : LoxClass := ⟨name.lexeme, scls, classMethods⟩
            let st5 := { st4 with classes := st4.classes ++ [newClass] }
            let cid := st5.callables.length
            let st6 := { st5 with callables := st5.callables ++ [LoxCallable.ClassConstructor classId] }
            match envAssign st6.envs st6.currEnv name (.LOX_CALLABLE cid) with
            | none => none
            | some (envs', .error e) => some ({ st6 with envs := envs' }, .error e)
            | some (envs', .ok _) => some ({ st6 with envs := envs' }, .ok .LOX_NULL)
    -- visit_expression_stmt (line 176)
    | .Expression expression =>
      match acceptExpr fuel st expression with
      | none => none
      | some (st1, .error e) => some (st1, .error e)
      | some (st1, .ok _) => some (st1, .ok .LOX_NULL)
    -- visit_function_stmt (line 232)
    | .Function ptr =>
      let f : LoxFunction := ⟨ptr, st.currEnv, false⟩
      let cid := st.callables.length
      let st1 := { st with callables := st.callables ++ [LoxCallable.UserFunction f] }
      let envs1 := envDefine st1.envs st1.currEnv ptr.name.lexeme (.LOX_CALLABLE cid)
      some ({ st1 with envs := envs1 }, .ok .LOX_NULL)
    -- visit_print_stmt (line 186)
    | .Print expression =>
      match acceptExpr fuel st expression with
      | none => none
      | some (st1, .error e) => some (st1, .error e)
      | some (st1, .ok v) =>
        some ({ st1 with output := st1.output ++ [displayLit st1 v] }, .ok .LOX_NULL)
    -- visit_return_stmt (line 246): wrap the value in the Return signal
    | .Return _ value =>
      match acceptExpr fuel st value with
      | none => none
      | some (st1, .error e) => some (st1, .error e)
      | some (st1, .ok v) => some (st1, .error (.Return v))
    -- visit_var_stmt (line 197)
    | .Var name initializer =>
      match acceptExpr fuel st initializer with
      | none => none
      | some (st1, .error e) => some (st1, .error e)
      | some (st1, .ok v) =>
        some ({ st1 with envs := envDefine st1.envs st1.currEnv name.lexeme v },
          .ok .LOX_NULL)
    -- visit_if_stmt (line 208)
    | .If expression then_branch else_branch =>
      match acceptExpr fuel st expression with
      | none => none
      | some (st1, .error e) => some (st1, .error e)
      | some (st1, .ok cv) =>
        if isTruthy cv then acceptStatement fuel st1 then_branch
        else acceptStatement fuel st1 else_branch
    -- visit_while_stmt (line 220)
    | .While expression body => whileLoop fuel st expression body
termination_by structural fuel => fuel

/-- `Interpreter::execute_block` (`interpreter.rs` line 89):
`mem::replace` the current frame pointer with the given environment and run
the statement loop, which restores the previous pointer on every exit. -/
def executeBlock : Nat → InterpState → List Stmt → Nat → EvalOut
  | 0, _, _, _ => none
  | fuel + 1, st, statements, environment =>
    let previous := st.currEnv
    executeBlockLoop fuel { st with currEnv := environment } statements previous
termination_by structural fuel => fuel

/-- The statement loop of `execute_block` (lines 91-111): a non-null
statement value is rewrapped as a `Return` signal; on a non-null value, an
error, or normal completion, `curr_env` is restored to `previous`. -/
def executeBlockLoop : Nat → InterpState → List Stmt → Nat → EvalOut
  | 0, _, _, _ => none
  | _ + 1, st, [], previous => some ({ st with currEnv := previous }, .ok .LOX_NULL)
  | fuel + 1, st, s :: rest, previous =>
    match acceptStatement fuel st s with
    | none => none
    | some (st1, .ok .LOX_NULL) => executeBlockLoop fuel st1 rest previous
    | some (st1, .ok lit) =>
      some ({ st1 with currEnv := previous }, .error (.Return lit))
    | some (st1, .error e) => some ({ st1 with currEnv := previous }, .error e)
termination_by structural fuel => fuel

/-- The `while` loop of `visit_while_stmt` (lines 222-225). -/
def whileLoop : Nat → InterpState → Expr → Stmt → EvalOut
  | 0, _, _, _ => none
  | fuel + 1, st, cond, body =>
    match acceptExpr fuel st cond with
    | none => none
    | some (st1, .error e) => some (st1, .error e)
    | some (st1, .ok cv) =>
      if isTruthy cv then
        match acceptStatement fuel st1 body with
        | none => none
        | some (st2, .error e) => some (st2, .error e)
        | some (st2, .ok _) => whileLoop fuel st2 cond body
      else some (st1, .ok .LOX_NULL)
termination_by structural fuel => fuel

end

/-- `Interpreter::interpret` (`interpreter.rs` line 37): run the top-level
statements in order; the first error is reported via `lox::runtime_error`
and terminates the run (returned here as `some error`). -/
def interpretLoop : Nat → InterpState → List Stmt →
    Option (InterpState × Option InterpreterError)
  | 0, _, _ => none
  | _ + 1, st, [] => some (st, none)
  | fuel + 1, st, s :: rest =>
    match acceptStatement fuel st s with
    | none => none
    | some (st1, .error e) => some (st1, some e)
    | some (st1, .ok _) => interpretLoop fuel st1 rest

/-- `Interpreter::new` (`interpreter.rs` line 30) after
`init_native_funcs`: a single global frame binding `clock` to the native
callable. -/
def initialState : InterpState :=
  { envs := [⟨[("clock", .LOX_CALLABLE 0)], none⟩],
    currEnv := 0, globalEnv := 0, locals := [],
    callables := [LoxCallable.Native], instances := [], classes := [], output := [] }

/-! ### Parser (`parser.rs`)

`Parser { tokens, current, curr_id }` plus the list of diagnostics passed to
`lox::token_error` / `lox::error` (modelled by their message strings).
`current: i32` is used only as a growing index and is modelled as `Nat`. -/

structure ParserState where
  tokens : List Token
  current : Nat
  curr_id : Nat
  reported : List String
  deriving Repr

/-- `Parser::new` (`parser.rs` line 21). -/
def initParser (tokens : List Token) : ParserState :=
  ⟨tokens, 0, 0, []⟩

/-- The replacement token written by `take_previous`:
`Token::new(NIL, String::new(), LOX_NULL, -1)`. -/
def nilDummyToken : Token := ⟨.NIL, "", .LOX_NULL, -1⟩

/-- Fallback for out-of-bounds indexing, which panics in Rust; unreachable
on `EOF`-terminated token lists. -/
def eofFallbackToken : Token := ⟨.EOF, "", .LOX_NULL, -1⟩

/-- `Parser::peek` (line 297). -/
def ParserState.peek (p : ParserState) : Token :=
  (p.tokens.get? p.current).getD eofFallbackToken

/-- `Parser::is_at_end` (line 293). -/
def ParserState.isAtEnd (p : ParserState) : Bool :=
  p.peek.token_type == .EOF

/-- `Parser::check` (line 280). -/
def ParserState.check (p : ParserState) (t : TokenType) : Bool :=
  if p.isAtEnd then false else p.peek.token_type == t

/-- `Parser::advance` (line 287). -/
def ParserState.advance (p : ParserState) : ParserState :=
  if p.isAtEnd then p else { p with current := p.current + 1 }

/-- `Parser::take_previous` (line 301): `mem::replace` the previous token
with the `NIL` dummy and return the original. -/
def ParserState.takePrevious (p : ParserState) : ParserState × Token :=
  let idx := p.current - 1
  (({ p with tokens := p.tokens.set idx nilDummyToken }),
   (p.tokens.get? idx).getD eofFallbackToken)

/-- `Parser::match_token` (line 270). -/
def ParserState.matchToken (p : ParserState) (types : List TokenType) :
    ParserState × Bool :=
  match types.find? (fun t => p.check t) with
  | some _ => (p.advance, true)
  | none => (p, false)

/-- `lox::token_error` / `lox::error` as seen from the parser: append the
diagnostic message. -/
def ParserState.report (p : ParserState) (message : String) : ParserState :=
  { p with reported := p.reported ++ [message] }

/-- `Parser::consume` (line 409): take the expected token or report the
message and return it as the failure value. -/
def ParserState.consume (p : ParserState) (t : TokenType) (message : String) :
    ParserState × Except String Token :=
  if p.check t then
    let (p2, tok) := p.advance.takePrevious
    (p2, .ok tok)
  else
    (p.report message, .error message)

/-- The `while` loop of `Parser::synchronize` (lines 421-431).  Note that
the loop body never advances `current`: if the first iteration passes both
checks, every later iteration sees the dummy written by `take_previous`
(never a semicolon) and the same `peek`, so the Rust loop never terminates
(`none`). -/
def syncLoop : Nat → ParserState → Option ParserState
  | 0, _ => none
  | fuel + 1, p =>
    if p.isAtEnd then some p.advance
    else
      let (p1, prevTok) := p.takePrevious
      if prevTok.token_type == .SEMICOLON then some p1
      else
        match p1.peek.token_type with
        | .CLASS | .FUN | .VAR | .FOR | .IF | .WHILE | .PRINT | .RETURN => some p1
        | _ => syncLoop fuel p1

/-- `Parser::synchronize` (line 419): advance once, then run the loop. -/
def synchronize (fuel : Nat) (p : ParserState) : Option ParserState :=
  syncLoop fuel p.advance

/-- Result type of the fuelled parser functions: `none` when the Rust
parser does not return (the `synchronize` loop) or panics. -/
abbrev ParseOut (α : Type) := Option (ParserState × Except String α)

mutual

/-- The `while` loop of `Parser::parse` (lines 27-30): each declaration is
parsed with `?`, so a failing declaration aborts the whole parse. -/
def parseLoop : Nat → ParserState → ParseOut (List Stmt)
  | 0, _ => none
  | fuel + 1, p =>
    if p.isAtEnd then some (p, .ok [])
    else
      match declaration fuel p with
      | none => none
      | some (p1, .error e) => some (p1, .error e)
      | some (p1, .ok s) =>
        match parseLoop fuel p1 with
        | none => none
        | some (p2, .error e) => some (p2, .error e)
        | some (p2, .ok rest) => some (p2, .ok (s :: rest))
termination_by structural fuel => fuel

/-- `Parser::declaration` (line 34): `fun` and `var` declarations propagate
errors directly; statement errors run `synchronize` before propagating. -/
def declaration : Nat → ParserState → ParseOut Stmt
  | 0, _ => none
  | fuel + 1, p =>
    let (p1, isFun) := p.matchToken [.FUN]
    if isFun then functionDeclaration fuel p1 "function"
    else
      let (p2, isVar) := p1.matchToken [.VAR]
      if isVar then varDeclaration fuel p2
      else
        match statement fuel p2 with
        | none => none
        | some (p3, .ok s) => some (p3, .ok s)
        | some (p3, .error e) =>
          match synchronize fuel p3 with
          | none => none
          | some p4 => some (p4, .error e)
termination_by structural fuel => fuel

/-- The parameter-list loop of `function_declaration` (lines 55-60). -/
def funParamsLoop : Nat → ParserState → List Token → ParseOut (List Token)
  | 0, _, _ => none
  | fuel + 1, p, acc =>
    let (p1, matched) := p.matchToken [.COMMA]
    if matched then
      let p2 := if acc.length ≥ 255
        then p1.report "Can't have more than 255 parameters." else p1
      match p2.consume .IDENTIFIER "Expect parameter name." with
      | (p3, .error e) => some (p3, .error e)
      | (p3, .ok t) => funParamsLoop fuel p3 (acc ++ [t])
    else some (p1, .ok acc)
termination_by structural fuel => fuel

/-- `Parser::function_declaration` (line 45). -/
def functionDeclaration : Nat → ParserState → String → ParseOut Stmt
  | 0, _, _ => none
  | fuel + 1, p, function_type =>
    match p.consume .IDENTIFIER ("Expect " ++ function_type ++ " name") with
    | (p1, .error e) => some (p1, .error e)
    | (p1, .ok name) =>
      match p1.consume .LEFT_PAREN ("Expect '(' after " ++ function_type ++ " name") with
      | (p2, .error e) => some (p2, .error e)
      | (p2, .ok _) =>
        let firstParam : ParseOut (List Token) :=
          if !(p2.check .RIGHT_PAREN) then
            let p3 := if (0 : Nat) ≥ 255
              then p2.report "Can't have more than 255 parameters." else p2
            match p3.consume .IDENTIFIER "Expect parameter name." with
            | (p4, .error e) => some (p4, .error e)
            | (p4, .ok t) => funParamsLoop fuel p4 [t]
          else some (p2, .ok [])
        match firstParam with
        | none => none
        | some (p5, .error e) => some (p5, .error e)
        | some (p5, .ok parameters) =>
          match p5.consume .RIGHT_PAREN "Expect ')' after parameters." with
          | (p6, .error e) => some (p6, .error e)
          | (p6, .ok _) =>
            match p6.consume .LEFT_BRACE
                ("Expect '\x7b' before " ++ function_type ++ " body") with
            | (p7, .error e) => some (p7, .error e)
            | (p7, .ok _) =>
              match blockStatement fuel p7 with
              | none => none
              | some (p8, .error e) => some (p8, .error e)
              | some (p8, .ok body) =>
                some (p8, .ok (.Function (.mk name parameters body)))
termination_by structural fuel => fuel

/-- `Parser::var_declaration` (line 68). -/
def varDeclaration : Nat → ParserState → ParseOut Stmt
  | 0, _ => none
  | fuel + 1, p =>
    match p.consume .IDENTIFIER "Expect variable name." with
    | (p1, .error e) => some (p1, .error e)
    | (p1, .ok name) =>
      let (p2, hasInit) := p1.matchToken [.EQUAL]
      let initRes : ParseOut Expr :=
        if hasInit then expression fuel p2
        else some (p2, .ok (.Literal .LOX_NULL))
      match initRes with
      | none => none
      | some (p3, .error e) => some (p3, .error e)
      | some (p3, .ok initializer) =>
        match p3.consume .SEMICOLON "Expect ';' after variable declaration." with
        | (p4, .error e) => some (p4, .error e)
        | (p4, .ok _) => some (p4, .ok (.Var name initializer))

/-- `Parser::statement` (line 78). -/
def statement : Nat → ParserState → ParseOut Stmt
  | 0, _ => none
  | fuel + 1, p =>
    let (p1, isPrint) := p.matchToken [.PRINT]
    if isPrint then printStatement fuel p1
    else
      let (p2, isBrace) := p1.matchToken [.LEFT_BRACE]
      if isBrace then
        match blockStatement fuel p2 with
        | none => none
        | some (p3, .error e) => some (p3, .error e)
        | some (p3, .ok statements) => some (p3, .ok (.Block statements))
      else
        let (p3, isIf) := p2.matchToken [.IF]
        if isIf then ifStatement fuel p3
        else
          let (p4, isWhile) := p3.matchToken [.WHILE]
          if isWhile then whileStatement fuel p4
          else
            let (p5, isFor) := p4.matchToken [.FOR]
            if isFor then forStatement fuel p5
            else
              let (p6, isReturn) := p5.matchToken [.RETURN]
              if isReturn then returnStatement fuel p6
              else expressionStatement fuel p6
termination_by structural fuel => fuel

/-- `Parser::print_statement` (line 107). -/
def printStatement : Nat → ParserState → ParseOut Stmt
  | 0, _ => none
  | fuel + 1, p =>
    match expression fuel p with
    | none => none
    | some (p1, .error e) => some (p1, .error e)
    | some (p1, .ok value) =>
      match p1.consume .SEMICOLON "Expect ';' after value" with
      | (p2, .error e) => some (p2, .error e)
      | (p2, .ok _) => some (p2, .ok (.Print value))

/-- `Parser::expression_statement` (line 113). -/
def expressionStatement : Nat → ParserState → ParseOut Stmt
  | 0, _ => none
  | fuel + 1, p =>
    match expression fuel p with
    | none => none
    | some (p1, .error e) => some (p1, .error e)
    | some (p1, .ok exprVal) =>
      match p1.consume .SEMICOLON "Expect ';' after expression" with
      | (p2, .error e) => some (p2, .error e)
      | (p2, .ok _) => some (p2, .ok (.Expression exprVal))

/-- The declaration loop of `block_statement` (lines 121-124). -/
def blockLoop : Nat → ParserState → ParseOut (List Stmt)
  | 0, _ => none
  | fuel + 1, p =>
    if !(p.check .RIGHT_BRACE) && !p.isAtEnd then
      match declaration fuel p with
      | none => none
      | some (p1, .error e) => some (p1, .error e)
      | some (p1, .ok s) =>
        match blockLoop fuel p1 with
        | none => none
        | some (p2, .error e) => some (p2, .error e)
        | some (p2, .ok rest) => some (p2, .ok (s :: rest))
    else some (p, .ok [])
termination_by structural fuel => fuel

/-- `Parser::block_statement` (line 119). -/
def blockStatement : Nat → ParserState → ParseOut (List Stmt)
  | 0, _ => none
  | fuel + 1, p =>
    match blockLoop fuel p with
    | none => none
    | some (p1, .error e) => some (p1, .error e)
    | some (p1, .ok statements) =>
      match p1.consume .RIGHT_BRACE "Expect '\x7d' after block." with
      | (p2, .error e) => some (p2, .error e)
      | (p2, .ok _) => some (p2, .ok statements)
termination_by structural fuel => fuel

/-- `Parser::if_statement` (line 129). -/
def ifStatement : Nat → ParserState → ParseOut Stmt
  | 0, _ => none
  | fuel + 1, p =>
    match p.consume .LEFT_PAREN "Expect '(' after 'if'" with
    | (p1, .error e) => some (p1, .error e)
    | (p1, .ok _) =>
      match expression fuel p1 with
      | none => none
      | some (p2, .error e) => some (p2, .error e)
      | some (p2, .ok condition) =>
        match p2.consume .RIGHT_PAREN "Expect ')' after if-condition" with
        | (p3, .error e) => some (p3, .error e)
        | (p3, .ok _) =>
          match statement fuel p3 with
          | none => none
          | some (p4, .error e) => some (p4, .error e)
          | some (p4, .ok then_branch) =>
            let (p5, hasElse) := p4.matchToken [.ELSE]
            if hasElse then
              match statement fuel p5 with
              | none => none
              | some (p6, .error e) => some (p6, .error e)
              | some (p6, .ok else_branch) =>
                some (p6, .ok (.If condition then_branch else_branch))
            else
              some (p5, .ok (.If condition then_branch
                (.Expression (.Literal .LOX_NULL))))
termination_by structural fuel => fuel

/-- `Parser::while_statement` (line 142). -/
def whileStatement : Nat → ParserState → ParseOut Stmt
  | 0, _ => none
  | fuel + 1, p =>
    match p.consume .LEFT_PAREN "Expect '(' after 'while'" with
    | (p1, .error e) => some (p1, .error e)
    | (p1, .ok _) =>
      match expression fuel p1 with
      | none => none
      | some (p2, .error e) => some (p2, .error e)
      | some (p2, .ok condition) =>
        match p2.consume .RIGHT_PAREN "Expect ')' after while-condition" with
        | (p3, .error e) => some (p3, .error e)
        | (p3, .ok _) =>
          match statement fuel p3 with
          | none => none
          | some (p4, .error e) => some (p4, .error e)
          | some (p4, .ok body) => some (p4, .ok (.While condition body))
termination_by structural fuel => fuel

/-- `Parser::for_statement` (line 150), including the `while` desugaring.
Both `match_token` calls in the initializer scrutinee run before the match
(left first), exactly as in Rust. -/
def forStatement : Nat → ParserState → ParseOut Stmt
  | 0, _ => none
  | fuel + 1, p =>
    match p.consume .LEFT_PAREN "Expect '(' after 'for'" with
    | (p1, .error e) => some (p1, .error e)
    | (p1, .ok _) =>
      let (p2, semiMatched) := p1.matchToken [.SEMICOLON]
      let (p3, varMatched) := p2.matchToken [.VAR]
      let initRes : ParseOut (Stmt × Bool) :=
        match semiMatched, varMatched with
        | true, _ => some (p3, .ok (.Expression (.Literal .LOX_NULL), false))
        | false, true =>
          match varDeclaration fuel p3 with
          | none => none
          | some (p4, .error e) => some (p4, .error e)
          | some (p4, .ok s) => some (p4, .ok (s, true))
        | false, false =>
          match expressionStatement fuel p3 with
          | none => none
          | some (p4, .error e) => some (p4, .error e)
          | some (p4, .ok s) => some (p4, .ok (s, true))
      match initRes with
      | none => none
      | some (p4, .error e) => some (p4, .error e)
      | some (p4, .ok (initializer, had_initializer)) =>
        let condRes : ParseOut Expr :=
          if !(p4.check .SEMICOLON) then expression fuel p4
          else some (p4, .ok (.Literal (.LOX_BOOL true)))
        match condRes with
        | none => none
        | some (p5, .error e) => some (p5, .error e)
        | some (p5, .ok condition) =>
          match p5.consume .SEMICOLON "Expect ';' after loop condition" with
          | (p6, .error e) => some (p6, .error e)
          | (p6, .ok _) =>
            let incrRes : ParseOut (Expr × Bool) :=
              if !(p6.check .RIGHT_PAREN) then
                match expression fuel p6 with
                | none => none
                | some (p7, .error e) => some (p7, .error e)
                | some (p7, .ok e) => some (p7, .ok (e, true))
              else some (p6, .ok (.Literal .LOX_NULL, false))
            match incrRes with
            | none => none
            | some (p7, .error e) => some (p7, .error e)
            | some (p7, .ok (increment, had_increment)) =>
              match p7.consume .RIGHT_PAREN "Expect ')' after for clause" with
              | (p8, .error e) => some (p8, .error e)
              | (p8, .ok _) =>
                match statement fuel p8 with
                | none => none
                | some (p9, .error e) => some (p9, .error e)
                | some (p9, .ok body) =>
                  let bodyStmts :=
                    match body with
                    | .Block statements => statements
                    | other => [other]
                  let bodyStmts' :=
                    if had_increment then bodyStmts ++ [.Expression increment]
                    else bodyStmts
                  let whileStmt := Stmt.While condition (.Block bodyStmts')
                  if had_initializer then
                    some (p9, .ok (.Block [initializer, whileStmt]))
                  else
                    some (p9, .ok whileStmt)
termination_by structural fuel => fuel

/-- `Parser::return_statement` (line 203). -/
def returnStatement : Nat → ParserState → ParseOut Stmt
  | 0, _ => none
  | fuel + 1, p =>
    let (p1, keyword) := p.takePrevious
    let valueRes : ParseOut Expr :=
      if !(p1.check .SEMICOLON) then expression fuel p1
      else some (p1, .ok (.Literal .LOX_NULL))
    match valueRes with
    | none => none
    | some (p2, .error e) => some (p2, .error e)
    | some (p2, .ok value) =>
      match p2.consume .SEMICOLON "Expect ';' after return value." with
      | (p3, .error e) => some (p3, .error e)
      | (p3, .ok _) => some (p3, .ok (.Return keyword value))

/-- `Parser::expression` (line 212). -/
def expression : Nat → ParserState → ParseOut Expr
  | 0, _ => none
  | fuel + 1, p => assignment fuel p
termination_by structural fuel => fuel

/-- `Parser::assignment` (line 216): right-associative; a non-`Variable`
target reports "Invalid assignment target." but keeps the parsed lhs. -/
def assignment : Nat → ParserState → ParseOut Expr
  | 0, _ => none
  | fuel + 1, p =>
    match orExpr fuel p with
    | none => none
    | some (p1, .error e) => some (p1, .error e)
    | some (p1, .ok lhs) =>
      let (p2, isEq) := p1.matchToken [.EQUAL]
      if isEq then
        let (p3, _equals) := p2.takePrevious
        match assignment fuel p3 with
        | none => none
        | some (p4, .error e) => some (p4, .error e)
        | some (p4, .ok value) =>
          match lhs with
          | .Variable name _ =>
            let id := p4.curr_id
            some ({ p4 with curr_id := id + 1 }, .ok (.Assign name value id))
          | _ =>
            some (p4.report "Invalid assignment target.", .ok lhs)
      else some (p2, .ok lhs)
termination_by structural fuel => fuel

/-- The `or` loop of `Parser::or` (line 240). -/
def orLoop : Nat → ParserState → Expr → ParseOut Expr
  | 0, _, _ => none
  | fuel + 1, p, left =>
    let (p1, matched) := p.matchToken [.OR]
    if matched then
      let (p2, operator) := p1.takePrevious
      match andExpr fuel p2 with
      | none => none
      | some (p3, .error e) => some (p3, .error e)
      | some (p3, .ok right) => orLoop fuel p3 (.Logical left operator right)
    else some (p1, .ok left)
termination_by structural fuel => fuel

/-- `Parser::or` (line 240). -/
def orExpr : Nat → ParserState → ParseOut Expr
  | 0, _ => none
  | fuel + 1, p =>
    match andExpr fuel p with
    | none => none
    | some (p1, .error e) => some (p1, .error e)
    | some (p1, .ok left) => orLoop fuel p1 left
termination_by structural fuel => fuel

/-- The `and` loop of `Parser::and` (line 250). -/
def andLoop : Nat → ParserState → Expr → ParseOut Expr
  | 0, _, _ => none
  | fuel + 1, p, left =>
    let (p1, matched) := p.matchToken [.AND]
    if matched then
      let (p2, operator) := p1.takePrevious
      match equality fuel p2 with
      | none => none
      | some (p3, .error e) => some (p3, .error e)
      | some (p3, .ok right) => andLoop fuel p3 (.Logical left operator right)
    else some (p1, .ok left)
termination_by structural fuel => fuel

/-- `Parser::and` (line 250). -/
def andExpr : Nat → ParserState → ParseOut Expr
  | 0, _ => none
  | fuel + 1, p =>
    match equality fuel p with
    | none => none
    | some (p1, .error e) => some (p1, .error e)
    | some (p1, .ok left) => andLoop fuel p1 left
termination_by structural fuel => fuel

/-- The loop of `Parser::equality` (line 260). -/
def equalityLoop : Nat → ParserState → Expr → ParseOut Expr
  | 0, _, _ => none
  | fuel + 1, p, left =>
    let (p1, matched) := p.matchToken [.BANG_EQUAL, .EQUAL_EQUAL]
    if matched then
      let (p2, operator) := p1.takePrevious
      match comparison fuel p2 with
      | none => none
      | some (p3, .error e) => some (p3, .error e)
      | some (p3, .ok right) => equalityLoop fuel p3 (.Binary left operator right)
    else some (p1, .ok left)
termination_by structural fuel => fuel

/-- `Parser::equality` (line 260). -/
def equality : Nat → ParserState → ParseOut Expr
  | 0, _ => none
  | fuel + 1, p =>
    match comparison fuel p with
    | none => none
    | some (p1, .error e) => some (p1, .error e)
    | some (p1, .ok left) => equalityLoop fuel p1 left
termination_by structural fuel => fuel

/-- The loop of `Parser::comparison` (line 306). -/
def comparisonLoop : Nat → ParserState → Expr → ParseOut Expr
  | 0, _, _ => none
  | fuel + 1, p, left =>
    let (p1, matched) := p.matchToken [.GREATER, .GREATER_EQUAL, .LESS, .LESS_EQUAL]
    if matched then
      let (p2, operator) := p1.takePrevious
      match term fuel p2 with
      | none => none
      | some (p3, .error e) => some (p3, .error e)
      | some (p3, .ok right) => comparisonLoop fuel p3 (.Binary left operator right)
    else some (p1, .ok left)
termination_by structural fuel => fuel

/-- `Parser::comparison` (line 306). -/
def comparison : Nat → ParserState → ParseOut Expr
  | 0, _ => none
  | fuel + 1, p =>
    match term fuel p with
    | none => none
    | some (p1, .error e) => some (p1, .error e)
    | some (p1, .ok left) => comparisonLoop fuel p1 left
termination_by structural fuel => fuel

/-- The loop of `Parser::term` (line 316). -/
def termLoop : Nat → ParserState → Expr → ParseOut Expr
  | 0, _, _ => none
  | fuel + 1, p, left =>
    let (p1, matched) := p.matchToken [.MINUS, .PLUS]
    if matched then
      let (p2, operator) := p1.takePrevious
      match factor fuel p2 with
      | none => none
      | some (p3, .error e) => some (p3, .error e)
      | some (p3, .ok right) => termLoop fuel p3 (.Binary left operator right)
    else some (p1, .ok left)
termination_by structural fuel => fuel

/-- `Parser::term` (line 316). -/
def term : Nat → ParserState → ParseOut Expr
  | 0, _ => none
  | fuel + 1, p =>
    match factor fuel p with
    | none => none
    | some (p1, .error e) => some (p1, .error e)
    | some (p1, .ok left) => termLoop fuel p1 left
termination_by structural fuel => fuel

/-- The loop of `Parser::factor` (line 326). -/
def factorLoop : Nat → ParserState → Expr → ParseOut Expr
  | 0, _, _ => none
  | fuel + 1, p, left =>
    let (p1, matched) := p.matchToken [.SLASH, .STAR]
    if matched then
      let (p2, operator) := p1.takePrevious
      match unary fuel p2 with
      | none => none
      | some (p3, .error e) => some (p3, .error e)
      | some (p3, .ok right) => factorLoop fuel p3 (.Binary left operator right)
    else some (p1, .ok left)
termination_by structural fuel => fuel

/-- `Parser::factor` (line 326). -/
def factor : Nat → ParserState → ParseOut Expr
  | 0, _ => none
  | fuel + 1, p =>
    match unary fuel p with
    | none => none
    | some (p1, .error e) => some (p1, .error e)
    | some (p1, .ok left) => factorLoop fuel p1 left
termination_by structural fuel => fuel

/-- `Parser::unary` (line 336). -/
def unary : Nat → ParserState → ParseOut Expr
  | 0, _ => none
  | fuel + 1, p =>
    let (p1, matched) := p.matchToken [.BANG, .MINUS]
    if matched then
      let (p2, operator) := p1.takePrevious
      match unary fuel p2 with
      | none => none
      | some (p3, .error e) => some (p3, .error e)
      | some (p3, .ok right) => some (p3, .ok (.Unary operator right))
    else callExpr fuel p1
termination_by structural fuel => fuel

/-- The call loop of `Parser::call` (lines 347-354). -/
def callLoop : Nat → ParserState → Expr → ParseOut Expr
  | 0, _, _ => none
  | fuel + 1, p, e =>
    let (p1, matched) := p.matchToken [.LEFT_PAREN]
    if matched then
      match finishCall fuel p1 e with
      | none => none
      | some (p2, .error err) => some (p2, .error err)
      | some (p2, .ok e') => callLoop fuel p2 e'
    else some (p1, .ok e)
termination_by structural fuel => fuel

/-- `Parser::call` (line 345). -/
def callExpr : Nat → ParserState → ParseOut Expr
  | 0, _ => none
  | fuel + 1, p =>
    match primary fuel p with
    | none => none
    | some (p1, .error e) => some (p1, .error e)
    | some (p1, .ok e) => callLoop fuel p1 e
termination_by structural fuel => fuel

/-- The argument loop of `Parser::finish_call` (lines 364-369). -/
def callArgsLoop : Nat → ParserState → List Expr → ParseOut (List Expr)
  | 0, _, _ => none
  | fuel + 1, p, acc =>
    let (p1, matched) := p.matchToken [.COMMA]
    if matched then
      let p2 := if acc.length ≥ 255
        then p1.report "Can't have more than 255 arguments." else p1
      match expression fuel p2 with
      | none => none
      | some (p3, .error e) => some (p3, .error e)
      | some (p3, .ok a) => callArgsLoop fuel p3 (acc ++ [a])
    else some (p1, .ok acc)
termination_by structural fuel => fuel

/-- `Parser::finish_call` (line 358). -/
def finishCall : Nat → ParserState → Expr → ParseOut Expr
  | 0, _, _ => none
  | fuel + 1, p, callee =>
    let argsRes : ParseOut (List Expr) :=
      if !(p.check .RIGHT_PAREN) then
        match expression fuel p with
        | none => none
        | some (p1, .error e) => some (p1, .error e)
        | some (p1, .ok a) => callArgsLoop fuel p1 [a]
      else some (p, .ok [])
    match argsRes with
    | none => none
    | some (p2, .error e) => some (p2, .error e)
    | some (p2, .ok arguments) =>
      match p2.consume .RIGHT_PAREN "Expect ')' after arguments." with
      | (p3, .error e) => some (p3, .error e)
      | (p3, .ok paren) => some (p3, .ok (.Call callee paren arguments))
termination_by structural fuel => fuel

/-- `Parser::primary` (line 375). -/
def primary : Nat → ParserState → ParseOut Expr
  | 0, _ => none
  | fuel + 1, p =>
    let (p1, isLit) := p.matchToken [.NUMBER, .STRING]
    if isLit then
      let (p2, tok) := p1.takePrevious
      some (p2, .ok (.Literal tok.literal))
    else
      let (p2, mTrue) := p1.matchToken [.TRUE]
      if mTrue then some (p2, .ok (.Literal (.LOX_BOOL true)))
      else
        let (p3, mFalse) := p2.matchToken [.FALSE]
        if mFalse then some (p3, .ok (.Literal (.LOX_BOOL false)))
        else
          let (p4, isNil) := p3.matchToken [.NIL]
          if isNil then some (p4, .ok (.Literal .LOX_NULL))
          else
            let (p5, isIdent) := p4.matchToken [.IDENTIFIER]
            if isIdent then
              let id := p5.curr_id
              let p6 := { p5 with curr_id := id + 1 }
              let (p7, name) := p6.takePrevious
              some (p7, .ok (.Variable name id))
            else
              let (p6, isParen) := p5.matchToken [.LEFT_PAREN]
              if isParen then
                match expression fuel p6 with
                | none => none
                | some (p7, .error e) => some (p7, .error e)
                | some (p7, .ok inner) =>
                  match p7.consume .RIGHT_PAREN "Expect ')' after expression." with
                  | (p8, .error e) => some (p8, .error e)
                  | (p8, .ok _) => some (p8, .ok (.Grouping inner))
              else
                some (p6.report "Expected expression", .error "Expected expression")
termination_by structural fuel => fuel

end

/-- `Parser::parse` (line 25). -/
def parse (fuel : Nat) (p : ParserState) : ParseOut (List Stmt) :=
  parseLoop fuel p

/-! ### Resolver (`resolver.rs`)

Only `declare_var` is needed by the claims in scope.  A resolver scope is a
name-to-"defined yet" map; the scope stack is modelled with the innermost
scope (the `Vec`'s last element) at the head of the list. -/

def lookupScope : List (String × Bool) → String → Option Bool
  | [], _ => none
  | (k, b) :: rest, key => if k = key then some b else lookupScope rest key

def insertScope : List (String × Bool) → String → Bool → List (String × Bool)
  | [], key, b => [(key, b)]
  | (k, c) :: rest, key, b =>
    if k = key then (k, b) :: rest else (k, c) :: insertScope rest key b

/-- `Resolver::declare_var` (`resolver.rs` line 79): skipped entirely when
the scope stack is empty; otherwise report "Already a variable with this
name in this scope." on a duplicate in the innermost scope and insert
`name ↦ false` there.  Returns the updated stack and the diagnostics
reported. -/
def declareVar (scopes : List (List (String × Bool))) (name : Token) :
    List (List (String × Bool)) × List String :=
  match scopes with
  | [] => ([], [])
  | innermost :: rest =>
    let errs :=
      if (lookupScope innermost name.lexeme).isSome then
        ["Already a variable with this name in this scope."]
      else []
    (insertScope innermost name.lexeme false :: rest, errs)

/-! ### Spec-side descriptions

Definitions in this section follow the words of the specification (not the
code); they are compared against the embedded code in the theorems below. -/

/-- Spec-side equality semantics (claim C5): primitives compare by value,
`nil == nil` is true, strings by contents, shared variants (callables,
instances) by reference identity, mixed kinds unequal. -/
def valueEq : TokenLiteral → TokenLiteral → Bool
  | .LOX_NUMBER a, .LOX_NUMBER b => a == b
  | .LOX_BOOL a, .LOX_BOOL b => a == b
  | .LOX_NULL, .LOX_NULL => true
  | .LOX_STRING a, .LOX_STRING b => a == b
  | .LOX_CALLABLE a, .LOX_CALLABLE b => a == b
  | .LOX_INSTANCE a, .LOX_INSTANCE b => a == b
  | _, _ => false

/-- Spec-side chained lookup over a list of frame contents (innermost
first): the first frame containing the name wins. -/
def chainSearch : List (List (String × TokenLiteral)) → String → Option TokenLiteral
  | [], _ => none
  | vs :: rest, key =>
    match lookupAssoc vs key with
    | some v => some v
    | none => chainSearch rest key

/-- Spec-side chained assignment over a list of frame contents (innermost
first): update the first frame containing the name; `none` when no frame
binds it. -/
def chainAssign : List (List (String × TokenLiteral)) → String → TokenLiteral →
    Option (List (List (String × TokenLiteral)))
  | [], _, _ => none
  | vs :: rest, key, v =>
    match lookupAssoc vs key with
    | some _ => some (insertAssoc vs key v :: rest)
    | none => (chainAssign rest key v).map (fun rest' => vs :: rest')

/-- Build a linear environment chain in the heap: frame `i` holds the
`i`-th contents and encloses frame `i+1` (the last frame has no enclosing
frame, like the global frame). -/
def mkChainAux : Nat → List (List (String × TokenLiteral)) → List Frame
  | _, [] => []
  | i, vs :: rest =>
    ⟨vs, if rest.isEmpty then none else some (i + 1)⟩ :: mkChainAux (i + 1) rest

def mkChain (vss : List (List (String × TokenLiteral))) : List Frame :=
  mkChainAux 0 vss

/-- Reset every frame with index in `[a, b)` to the default (empty) frame;
describes the destruction performed by `ancestor`'s `take`. -/
def blankRange : List Frame → Nat → Nat → List Frame
  | [], _, _ => []
  | fr :: rest, a, b =>
    (if a = 0 ∧ 0 < b then Frame.defaultFrame else fr) :: blankRange rest (a - 1) (b - 1)

/-! ### Concrete scenario material used by counterexamples and witnesses -/

/-- An identifier token on line 1. -/
def identTok (s : String) : Token := ⟨.IDENTIFIER, s, .LOX_NULL, 1⟩

/-- An operator/punctuation token on line 1. -/
def opTok (t : TokenType) (s : String) : Token := ⟨t, s, .LOX_NULL, 1⟩

/-- The statement `-"x";`, whose evaluation raises the runtime error
`Minus operator used on non-numerical operand`. -/
def badMinusStmt : Stmt :=
  .Expression (.Unary (opTok .MINUS "-") (.Literal (.LOX_STRING "x")))

/-- `class A { init() { -"x"; } }` - a class whose initializer body raises
a runtime error. -/
def c2ClassDecl : Stmt :=
  .Class (identTok "A") [.Function (.mk (identTok "init") [] [badMinusStmt])] none

/-- `A();` - invoke the class constructor (and hence the failing `init`). -/
def c2CallStmt : Stmt :=
  .Expression (.Call (.Variable (identTok "A") 0) (opTok .RIGHT_PAREN ")") [])

/-- `class A { method() { print "A"; } }` (spec scenario 6). -/
def c4ClassADecl : Stmt :=
  .Class (identTok "A")
    [.Function (.mk (identTok "method") [] [.Print (.Literal (.LOX_STRING "A"))])]
    none

/-- `class B < A { method() { print "B"; } test() { super.method(); } }`;
the `super` expression carries id 10. -/
def c4ClassBDecl : Stmt :=
  .Class (identTok "B")
    [.Function (.mk (identTok "method") [] [.Print (.Literal (.LOX_STRING "B"))]),
     .Function (.mk (identTok "test") []
       [.Expression (.Call (.Super (opTok .SUPER "super") (identTok "method") 10)
         (opTok .RIGHT_PAREN ")") [])])]
    (some (.Variable (identTok "A") 1))

/-- `class C < B {}`. -/
def c4ClassCDecl : Stmt :=
  .Class (identTok "C") [] (some (.Variable (identTok "B") 2))

/-- `C().test();`. -/
def c4CallStmt : Stmt :=
  .Expression (.Call
    (.Get (.Call (.Variable (identTok "C") 3) (opTok .RIGHT_PAREN ")") [])
      (identTok "test") 4)
    (opTok .RIGHT_PAREN ")") [])

/-- The spec-scenario-6 program. -/
def c4Program : List Stmt := [c4ClassADecl, c4ClassBDecl, c4ClassCDecl, c4CallStmt]

/-- Interpreter state for the scenario: fresh interpreter plus the resolver
distance the (intended) resolver records for the `super` expression - the
method body runs in the call frame, one hop below the `this` frame, two
hops below the `super` frame, so the `super` expression (id 10) resolves to
distance 2. -/
def c4State : InterpState := { initialState with locals := [(10, 2)] }

/-- A class `K` with a single method `m` (empty body), used to exercise
bound-method allocation. -/
def c9Class : LoxClass := ⟨"K", none, [("m", ⟨.mk (identTok "m") [] [], 0, false⟩)]⟩

/-- A state holding one instance of `K` with no fields. -/
def c9State : InterpState :=
  { envs := [⟨[], none⟩], currEnv := 0, globalEnv := 0, locals := [],
    callables := [], instances := [⟨0, []⟩], classes := [c9Class], output := [] }

/-- A state holding one instance (of a methodless class) with no fields,
for the set-expression counterexample. -/
def c8State : InterpState :=
  { envs := [⟨[], none⟩], currEnv := 0, globalEnv := 0, locals := [],
    callables := [], instances := [⟨0, []⟩], classes := [⟨"P", none, []⟩],
    output := [] }

/-- The expression `obj.name = (obj.other = 1) + (-"s")` over the instance
with heap index 0: the value subexpression first writes the field `other`
and then raises a runtime error. -/
def c8SetExpr : Expr :=
  .Set (.Literal (.LOX_INSTANCE 0)) (identTok "name")
    (.Binary
      (.Set (.Literal (.LOX_INSTANCE 0)) (identTok "other")
        (.Literal (.LOX_NUMBER 1)) 21)
      (opTok .PLUS "+")
      (.Unary (opTok .MINUS "-") (.Literal (.LOX_STRING "s"))))
    20

/-- State with a global frame and one extra frame for the block-restoration
witness. -/
def c3State : InterpState :=
  { initialState with envs := initialState.envs ++ [⟨[], some 0⟩] }

/-- `{ { return 7; } }` - a return signal unwinding through two nested
blocks. -/
def c3Stmts : List Stmt :=
  [.Block [.Block [.Return (opTok .RETURN "return") (.Literal (.LOX_NUMBER 7))]]]

/-- Tokens of `; print 1;` - a syntax error in the first declaration
followed by a well-formed declaration. -/
def c7Tokens : List Token :=
  [opTok .SEMICOLON ";", opTok .PRINT "print",
   ⟨.NUMBER, "1", .LOX_NUMBER 1, 1⟩, opTok .SEMICOLON ";", ⟨.EOF, "", .LOX_NULL, 1⟩]

/-- Tokens of `print 1;` - the remainder of the input after the error. -/
def c7RestTokens : List Token :=
  [opTok .PRINT "print", ⟨.NUMBER, "1", .LOX_NUMBER 1, 1⟩,
   opTok .SEMICOLON ";", ⟨.EOF, "", .LOX_NULL, 1⟩]

/-- A state whose only frame is a global frame with contents `g`. -/
def globalOnlyState (g : List (String × TokenLiteral)) : InterpState :=
  { envs := [⟨g, none⟩], currEnv := 0, globalEnv := 0, locals := [],
    callables := [], instances := [], classes := [], output := [] }

/-- `A.method` as a runtime closure: `class A` has no superclass, so its
methods close over the global frame (env 0). -/
def c4MethodAFn : LoxFunction :=
  ⟨.mk (identTok "method") [] [.Print (.Literal (.LOX_STRING "A"))], 0, false⟩

/-- `B.method`: `B`'s methods close over `B`'s `super` frame (env 1). -/
def c4MethodBFn : LoxFunction :=
  ⟨.mk (identTok "method") [] [.Print (.Literal (.LOX_STRING "B"))], 1, false⟩

/-- The `super.method()` expression inside `B.test` (expression id 10). -/
def c4SuperExpr : Expr := .Super (opTok .SUPER "super") (identTok "method") 10

/-- `B.test`, whose body is `super.method();`. -/
def c4TestFn : LoxFunction :=
  ⟨.mk (identTok "test") []
    [.Expression (.Call c4SuperExpr (opTok .RIGHT_PAREN ")") [])], 1, false⟩

/-- The class heap after the three declarations of spec scenario 6:
`A` (id 0), `B < A` (id 1), `C < B` (id 2). -/
def c4Classes : List LoxClass :=
  [⟨"A", none, [("method", c4MethodAFn)]⟩,
   ⟨"B", some 0, [("method", c4MethodBFn), ("test", c4TestFn)]⟩,
   ⟨"C", some 1, []⟩]

/-- The interpreter configuration reached inside the body of `test()` while
running `C().test();` (spec scenario 6): env 0 is the global frame; env 1 is
`B`'s `super` frame binding `super` to the wrapper instance of `A`
(instance 0); env 2 is `C`'s `super` frame (wrapper of `B`, instance 1);
env 3 is the `this` frame created by `bind`, binding `this` to the receiver
(the `C` instance, instance 2) over `test`'s closure (env 1); env 4 is the
call frame of `test`.  The resolver distance for the `super` expression
(id 10) is 2: the body runs in the call frame, one hop below the `this`
frame, two hops below the `super` frame. -/
def c4SuperState : InterpState :=
  { envs :=
      [⟨[("clock", .LOX_CALLABLE 0), ("A", .LOX_CALLABLE 1),
         ("B", .LOX_CALLABLE 2), ("C", .LOX_CALLABLE 3)], none⟩,
       ⟨[("super", .LOX_INSTANCE 0)], some 0⟩,
       ⟨[("super", .LOX_INSTANCE 1)], some 0⟩,
       ⟨[("this", .LOX_INSTANCE 2)], some 1⟩,
       ⟨[], some 3⟩],
    currEnv := 4, globalEnv := 0, locals := [(10, 2)],
    callables := [.Native, .ClassConstructor 0, .ClassConstructor 1,
                  .ClassConstructor 2, .UserFunction ⟨c4TestFn.declaration, 3, false⟩],
    instances := [⟨0, []⟩, ⟨1, []⟩, ⟨2, []⟩],
    classes := c4Classes, output := [] }

/-- A user function `g() { -"x"; }` closing over the global frame. -/
def c2PlainFn : LoxFunction := ⟨.mk (identTok "g") [] [badMinusStmt], 0, false⟩

/-- The same function marked as an initializer (`is_initializer = true`),
as `visit_class_stmt` builds it for a method named `init`. -/
def c2InitFn : LoxFunction := ⟨.mk (identTok "g") [] [badMinusStmt], 0, true⟩

/-- The state after `LoxFunction::call` on `c2PlainFn`/`c2InitFn` from
`globalOnlyState []` has executed the failing body: the call frame was
pushed and the frame pointer restored. -/
def c2ErrState : InterpState :=
  { envs := [⟨[], none⟩, ⟨[], some 0⟩], currEnv := 0, globalEnv := 0,
    locals := [], callables := [], instances := [], classes := [], output := [] }

/-- A state whose callable heap holds one user function (for the
call-dispatch witness). -/
def c6UserState : InterpState :=
  { envs := [⟨[], none⟩], currEnv := 0, globalEnv := 0, locals := [],
    callables := [.UserFunction ⟨.mk (identTok "f") [] [], 0, false⟩],
    instances := [], classes := [], output := [] }

/-- A state whose callable heap holds one class constructor (for the
call-dispatch witness). -/
def c6ClassState : InterpState :=
  { envs := [⟨[], none⟩], currEnv := 0, globalEnv := 0, locals := [],
    callables := [.ClassConstructor 0], instances := [],
    classes := [⟨"K", none, []⟩], output := [] }

/-- The parser state after `statement` fails on the tokens of
`; print 1;`: the error is reported, `current` still at the `;`. -/
def c7AfterError : ParserState := ⟨c7Tokens, 0, 0, ["Expected expression"]⟩

/-- The parser state after `synchronize` from `c7AfterError`: it advanced
over the `;` (replacing it with the dummy token via `take_previous`) and
stopped. -/
def c7AfterSync : ParserState :=
  ⟨nilDummyToken :: c7RestTokens, 1, 0, ["Expected expression"]⟩

/-! ## Theorems -/

/-- `HashMap::insert` then `get` on the same key yields the inserted value
(the new binding replaces any previous one). -/
theorem lookupAssoc_insertAssoc (l : List (String × TokenLiteral))
    (k : String) (v : TokenLiteral) :
    lookupAssoc (insertAssoc l k v) k = some v := by
  induction l with
  | nil => simp [insertAssoc, lookupAssoc]
  | cons hd tl ih =>
    by_cases h : hd.1 = k
    · simp [insertAssoc, lookupAssoc, h]
    · simp [insertAssoc, lookupAssoc, h, ih]

/-- The statement loop of `execute_block` restores `curr_env` to `previous`
on every exit that returns at all. -/
theorem executeBlockLoop_currEnv :
    ∀ (fuel : Nat) (st : InterpState) (stmts : List Stmt) (previous : Nat)
      (st' : InterpState) (r : Except InterpreterError TokenLiteral),
      executeBlockLoop fuel st stmts previous = some (st', r) →
      st'.currEnv = previous := by
  intro fuel
  induction fuel with
  | zero =>
    intro st stmts previous st' r h
    simp [executeBlockLoop] at h
  | succ n ih =>
    intro st stmts previous st' r h
    cases stmts with
    | nil =>
      simp only [executeBlockLoop, Option.some.injEq, Prod.mk.injEq] at h
      rw [← h.1]
    | cons s rest =>
      simp only [executeBlockLoop] at h
      rcases hAS : acceptStatement n st s with _ | ⟨st1, r1⟩
      · rw [hAS] at h; exact absurd h (by simp)
      · rw [hAS] at h
        rcases r1 with e | lit
        · simp only [Option.some.injEq, Prod.mk.injEq] at h
          rw [← h.1]
        · cases lit with
          | LOX_NULL => exact ih st1 rest previous st' r h
          | LOX_BOOL b =>
            simp only [Option.some.injEq, Prod.mk.injEq] at h; rw [← h.1]
          | LOX_NUMBER m =>
            simp only [Option.some.injEq, Prod.mk.injEq] at h; rw [← h.1]
          | LOX_STRING s' =>
            simp only [Option.some.injEq, Prod.mk.injEq] at h; rw [← h.1]
          | LOX_CALLABLE c =>
            simp only [Option.some.injEq, Prod.mk.injEq] at h; rw [← h.1]
          | LOX_INSTANCE i =>
            simp only [Option.some.injEq, Prod.mk.injEq] at h; rw [← h.1]

/-- C3: for every list of statements and every child environment,
`execute_block` leaves the interpreter's current-frame pointer equal to its
value before block entry on every exit path that returns at all (normal
completion, a propagated runtime error, or a propagated return signal -
including a return signal that unwound through nested blocks inside
`statements`). -/
theorem c3_executeBlock_restores_currEnv (fuel : Nat) (st : InterpState)
    (stmts : List Stmt) (env : Nat) (st' : InterpState)
    (r : Except InterpreterError TokenLiteral)
    (h : executeBlock fuel st stmts env = some (st', r)) :
    st'.currEnv = st.currEnv := by
  cases fuel with
  | zero => simp [executeBlock] at h
  | succ n => exact executeBlockLoop_currEnv n _ stmts st.currEnv st' r h

/-- Witness for C3: a return signal unwinding through two nested blocks;
the current frame pointer comes back to frame 0 (its value at entry). -/
theorem c3_executeBlock_restores_currEnv_witness :
    executeBlock 20 c3State c3Stmts 1 =
      some ({ c3State with
                envs := c3State.envs ++ [⟨[], some 1⟩, ⟨[], some 2⟩]
                currEnv := 0 },
            .error (.Return (.LOX_NUMBER 7))) ∧
    ({ c3State with
         envs := c3State.envs ++ [⟨[], some 1⟩, ⟨[], some 2⟩]
         currEnv := 0 } : InterpState).currEnv = c3State.currEnv := by
  constructor
  · rfl
  · exact c3_executeBlock_restores_currEnv 20 c3State c3Stmts 1 _ _ rfl

/-- C4 (code bug): evaluating `super.method()` in the configuration reached
inside `test()` of spec scenario 6 raises the runtime error
`Undefined variable 'this'` (line -1, the dummy token's line) instead of
calling `A.method` bound to the receiver: `get_at(2, "super")` walks through
`ancestor`, whose `RefCell::take` empties the intermediate `this` frame, so
the subsequent `get_at(1, "this")` finds an empty frame with no enclosing
frame.  Method lookup itself would have succeeded: `find_method` starting at
`A` finds `A.method`, and `C` inherits `test` from `B` through the
superclass walk. -/
theorem c4_super_lookup_code_bug :
    (acceptExpr 5 c4SuperState c4SuperExpr).map (fun pr => pr.2) =
      some (.error (.OperatorError (-1) "Undefined variable 'this'")) ∧
    findMethod c4SuperState.classes 0 "method" = some c4MethodAFn ∧
    findMethod c4SuperState.classes 2 "test" = some c4TestFn := by
  exact ⟨rfl, rfl, rfl⟩

/-- C5: for every pair of runtime values, `==` and `!=` dispatch in
`visit_binary_expr` never raises an error and computes exactly the
spec-side equality `valueEq` (numbers, booleans and nil by value,
`nil == nil` true, strings by contents, callables and instances by
reference identity, mixed kinds unequal under `==` and equal under `!=`). -/
theorem c5_equality_total (lex : String) (lit : TokenLiteral) (line : Int)
    (l r : TokenLiteral) :
    binaryOperate ⟨.EQUAL_EQUAL, lex, lit, line⟩ l r =
      .ok (.LOX_BOOL (valueEq l r)) ∧
    binaryOperate ⟨.BANG_EQUAL, lex, lit, line⟩ l r =
      .ok (.LOX_BOOL (!valueEq l r)) := by
  cases l <;> cases r <;> simp [binaryOperate, valueEq, isEqual]

/-- C1 counterexample: in the chain `[current = {}, enclosing = {x = 42}]`
the current frame does not bind `x`, yet `get_at(0, x)` succeeds with the
enclosing frame's value - so `get_at(0, ...)` does not read from the
current frame only, and `get_at` does search further enclosing frames.
Moreover `get_at(2, x)` on a three-frame chain resets the intermediate
frame 1 to the default (empty, unlinked) frame, so it modifies a frame
other than the target. -/
theorem c1_getAt_zero_counterexample :
    lookupAssoc ([] : List (String × TokenLiteral)) "x" = none ∧
    envGetAt (mkChain [[], [("x", .LOX_NUMBER 42)]]) 0 0 (identTok "x") =
      some (mkChain [[], [("x", .LOX_NUMBER 42)]], .ok (.LOX_NUMBER 42)) ∧
    (envGetAt (mkChain [[], [("a", .LOX_NUMBER 1)], [("x", .LOX_NUMBER 42)]])
        0 2 (identTok "x")).map (fun pr => (pr.1.get? 1, pr.2)) =
      some (some Frame.defaultFrame, .ok (.LOX_NUMBER 42)) := by
  exact ⟨rfl, rfl, rfl⟩

set_option maxHeartbeats 4000000 in
/-- C2 counterexample: the program `class A { init() { -"x"; } }  A();`
completes with no runtime error at the top level (first conjunct), although
evaluating the initializer's body statement raises the runtime error
`Minus operator used on non-numerical operand` (second conjunct):
`LoxFunction::call` with `is_initializer = true` discards the body's
outcome and returns the `this` binding instead. -/
theorem c2_initializer_swallows_counterexample :
    (interpretLoop 30 initialState [c2ClassDecl, c2CallStmt]).map
        (fun pr => pr.2) = some none ∧
    acceptExpr 5 initialState (.Unary (opTok .MINUS "-") (.Literal (.LOX_STRING "x"))) =
      some (initialState,
        .error (.OperatorError 1 "Minus operator used on non-numerical operand")) := by
  exact ⟨rfl, rfl⟩

/-- C2 amended: runtime errors propagate through the statement loop of
`execute_block` (restoring the frame pointer) and terminate the current
top-level statement in `interpret`; `LoxFunction::call` propagates a
runtime error raised in the body when `is_initializer` is false, but for an
initializer it discards the body's outcome - runtime errors included - and
returns the closure's `this` binding. -/
theorem c2_error_propagation_amended (fuel : Nat) (stI : InterpState)
    (s : Stmt) (rest : List Stmt) (stI2 : InterpState) (e : InterpreterError)
    (previous : Nat) (stF : InterpState) (fA fB : LoxFunction)
    (args argsB : List TokenLiteral) (stF2 stB2 : InterpState)
    (l lB : Int) (m mB : String) :
    (acceptStatement fuel stI s = some (stI2, .error e) →
      executeBlockLoop (fuel + 1) stI (s :: rest) previous =
        some ({ stI2 with currEnv := previous }, .error e)) ∧
    (acceptStatement fuel stI s = some (stI2, .error e) →
      interpretLoop (fuel + 1) stI (s :: rest) = some (stI2, some e)) ∧
    (fA.is_initializer = false →
      executeBlock fuel
          { stF with envs :=
              stF.envs ++ [⟨bindParams fA.declaration.params args, some fA.closure⟩] }
          fA.declaration.body stF.envs.length = some (stF2, .error (.OperatorError l m)) →
      loxFunctionCall (fuel + 1) stF fA args = some (stF2, .error (.OperatorError l m))) ∧
    (fB.is_initializer = true →
      executeBlock fuel
          { stF with envs :=
              stF.envs ++ [⟨bindParams fB.declaration.params argsB, some fB.closure⟩] }
          fB.declaration.body stF.envs.length = some (stB2, .error (.OperatorError lB mB)) →
      loxFunctionCall (fuel + 1) stF fB argsB =
        (envGetAt stB2.envs fB.closure 0 dummyThisFn).map
          (fun pr => ({ stB2 with envs := pr.1 }, pr.2))) := by
  refine ⟨?_, ?_, ?_, ?_⟩
  · intro h
    simp only [executeBlockLoop, h]
  · intro h
    simp only [interpretLoop, h]
  · intro hInit h
    simp only [loxFunctionCall, h, hInit, Bool.false_eq_true, if_false]
  · intro hInit h
    simp only [loxFunctionCall, h, hInit, if_true]
    rcases hg : envGetAt stB2.envs fB.closure 0 dummyThisFn with _ | ⟨envs', r⟩ <;>
      simp [hg]

/-- Witness for C2's amended statement: the failing statement `-"x";`
propagates through the block loop and terminates `interpret`; a
non-initializer call of `g() { -"x"; }` propagates the error, and the same
function marked as an initializer instead returns the result of reading
`this` from its closure. -/
theorem c2_error_propagation_amended_witness :
    executeBlockLoop 6 initialState [badMinusStmt] 0 =
      some (initialState,
        .error (.OperatorError 1 "Minus operator used on non-numerical operand")) ∧
    interpretLoop 6 initialState [badMinusStmt] =
      some (initialState,
        some (.OperatorError 1 "Minus operator used on non-numerical operand")) ∧
    loxFunctionCall 11 (globalOnlyState []) c2PlainFn [] =
      some (c2ErrState,
        .error (.OperatorError 1 "Minus operator used on non-numerical operand")) ∧
    loxFunctionCall 11 (globalOnlyState []) c2InitFn [] =
      some (c2ErrState, .error (.OperatorError 0 "Undefined variable 'this'")) := by
  have h := c2_error_propagation_amended 5 initialState badMinusStmt []
    initialState (.OperatorError 1 "Minus operator used on non-numerical operand") 0
    (globalOnlyState []) c2PlainFn c2InitFn [] [] c2ErrState c2ErrState
    1 1 "Minus operator used on non-numerical operand"
    "Minus operator used on non-numerical operand"
  have h10 := c2_error_propagation_amended 10 initialState badMinusStmt []
    initialState (.OperatorError 1 "Minus operator used on non-numerical operand") 0
    (globalOnlyState []) c2PlainFn c2InitFn [] [] c2ErrState c2ErrState
    1 1 "Minus operator used on non-numerical operand"
    "Minus operator used on non-numerical operand"
  exact ⟨h.1 rfl, h.2.1 rfl, h10.2.2.1 rfl rfl, h10.2.2.2 rfl rfl⟩

/-- C6 counterexample: calling a non-callable raises
`Can only call functions and class instances` - not the message
`Can only call functions and classes` stated by the claim. -/
theorem c6_call_error_message_counterexample :
    (acceptExpr 3 initialState
        (.Call (.Literal (.LOX_NUMBER 3)) (opTok .RIGHT_PAREN ")") [])).map
        (fun pr => pr.2) =
      some (.error (.OperatorError 1 "Can only call functions and class instances")) ∧
    "Can only call functions and class instances" ≠
      "Can only call functions and classes" := by
  exact ⟨rfl, by decide⟩

/-- C6 amended: `visit_call_expr` evaluates the callee and then the
arguments in source order before any check; a non-callable callee raises
`Can only call functions and class instances`; an arity mismatch raises
`Expected N arguments but got M.`; on a match, user functions are invoked
with exactly the evaluated argument list, while class constructors receive
the class value itself appended after the evaluated arguments. -/
theorem c6_call_dispatch_amended (fuel : Nat) (st stA stB : InterpState)
    (params : List TokenLiteral) (paren : Token) (v : TokenLiteral)
    (c cU cC : Nat) (callable : LoxCallable) (fU : LoxFunction) (cid : Nat)
    (callee : Expr) (argExprs : List Expr) (cv : TokenLiteral) :
    ((∀ k, v ≠ .LOX_CALLABLE k) →
      callDispatch (fuel + 1) st v params paren =
        some (st, .error (.OperatorError paren.line
          "Can only call functions and class instances"))) ∧
    (st.callables.get? c = some callable →
      callableArity st.classes callable ≠ params.length →
      callDispatch (fuel + 1) st (.LOX_CALLABLE c) params paren =
        some (st, .error (.OperatorError paren.line
          ("Expected " ++ toString (callableArity st.classes callable) ++
           " arguments but got " ++ toString params.length ++ ".")))) ∧
    (st.callables.get? cU = some (.UserFunction fU) →
      fU.arity = params.length →
      callDispatch (fuel + 1) st (.LOX_CALLABLE cU) params paren =
        callableCall fuel st cU params) ∧
    (st.callables.get? cC = some (.ClassConstructor cid) →
      classArity st.classes cid = params.length →
      callDispatch (fuel + 1) st (.LOX_CALLABLE cC) params paren =
        callableCall fuel st cC (params ++ [.LOX_CALLABLE cC])) ∧
    (acceptExpr fuel st callee = some (stA, .ok cv) →
      evalArgs fuel stA argExprs = some (stB, .ok params) →
      acceptExpr (fuel + 1) st (.Call callee paren argExprs) =
        callDispatch fuel stB cv params paren) := by
  refine ⟨?_, ?_, ?_, ?_, ?_⟩
  · intro hv
    cases v with
    | LOX_CALLABLE k => exact absurd rfl (hv k)
    | LOX_NULL => rfl
    | LOX_BOOL b => rfl
    | LOX_NUMBER n => rfl
    | LOX_STRING s => rfl
    | LOX_INSTANCE i => rfl
  · intro hc har
    simp only [callDispatch, hc, if_neg har]
  · intro hc har
    simp only [callDispatch, hc, callableArity, har, if_pos]
  · intro hc har
    simp only [callDispatch, hc, callableArity, har, if_pos]
  · intro h1 h2
    simp only [acceptExpr, h1, h2]

/-- Witness for C6's amended statement, at a number callee, the native
`clock` (arity 0) with one argument, a user function, a class constructor,
and a literal call expression. -/
theorem c6_call_dispatch_amended_witness :
    callDispatch 3 initialState (.LOX_NUMBER 3) [] (opTok .RIGHT_PAREN ")") =
      some (initialState, .error (.OperatorError 1
        "Can only call functions and class instances")) ∧
    callDispatch 3 initialState (.LOX_CALLABLE 0) [.LOX_NULL] (opTok .RIGHT_PAREN ")") =
      some (initialState, .error (.OperatorError 1
        "Expected 0 arguments but got 1.")) ∧
    callDispatch 1 c6UserState (.LOX_CALLABLE 0) [] (opTok .RIGHT_PAREN ")") =
      callableCall 0 c6UserState 0 [] ∧
    callDispatch 1 c6ClassState (.LOX_CALLABLE 0) [] (opTok .RIGHT_PAREN ")") =
      callableCall 0 c6ClassState 0 [.LOX_CALLABLE 0] ∧
    acceptExpr 2 initialState
        (.Call (.Literal (.LOX_NUMBER 3)) (opTok .RIGHT_PAREN ")") []) =
      callDispatch 1 initialState (.LOX_NUMBER 3) [] (opTok .RIGHT_PAREN ")") := by
  have hA := c6_call_dispatch_amended 2 initialState initialState initialState []
    (opTok .RIGHT_PAREN ")") (.LOX_NUMBER 3) 0 0 0 .Native
    ⟨.mk (identTok "f") [] [], 0, false⟩ 0 (.Literal (.LOX_NUMBER 3)) []
    (.LOX_NUMBER 3)
  have hB := c6_call_dispatch_amended 2 initialState initialState initialState
    [.LOX_NULL] (opTok .RIGHT_PAREN ")") (.LOX_NUMBER 3) 0 0 0 .Native
    ⟨.mk (identTok "f") [] [], 0, false⟩ 0 (.Literal (.LOX_NUMBER 3)) []
    (.LOX_NUMBER 3)
  have hC := c6_call_dispatch_amended 0 c6UserState c6UserState c6UserState []
    (opTok .RIGHT_PAREN ")") .LOX_NULL 0 0 0
    (.UserFunction ⟨.mk (identTok "f") [] [], 0, false⟩)
    ⟨.mk (identTok "f") [] [], 0, false⟩ 0 (.Literal .LOX_NULL) [] .LOX_NULL
  have hD := c6_call_dispatch_amended 0 c6ClassState c6ClassState c6ClassState []
    (opTok .RIGHT_PAREN ")") .LOX_NULL 0 0 0 (.ClassConstructor 0)
    ⟨.mk (identTok "f") [] [], 0, false⟩ 0 (.Literal .LOX_NULL) [] .LOX_NULL
  have hE := c6_call_dispatch_amended 1 initialState initialState initialState []
    (opTok .RIGHT_PAREN ")") .LOX_NULL 0 0 0 .Native
    ⟨.mk (identTok "f") [] [], 0, false⟩ 0 (.Literal (.LOX_NUMBER 3)) []
    (.LOX_NUMBER 3)
  refine ⟨hA.1 ?_, hB.2.1 rfl ?_, hC.2.2.1 rfl rfl, hD.2.2.2.1 rfl rfl,
    hE.2.2.2.2 rfl rfl⟩
  · intro k h
    cases h
  · decide

/-- C7 counterexample: on the tokens of `; print 1;` the parse returns a
failure result (no statements at all) after reporting the error, even
though the remainder of the input parses cleanly to `print 1;` - so an
error in one declaration does abort the whole parse instead of returning
the statements parsed from the rest. -/
theorem c7_parse_aborts_counterexample :
    (parse 30 (initParser c7Tokens)).map (fun r => (r.2, r.1.reported)) =
      some (.error "Expected expression", ["Expected expression"]) ∧
    (parse 30 (initParser c7RestTokens)).map (fun r => r.2) =
      some (.ok [.Print (.Literal (.LOX_NUMBER 1))]) := by
  exact ⟨rfl, rfl⟩

/-- C7 amended: a statement-level syntax error is reported and
`synchronize` runs, but `declaration` still returns the failure, and
`Parser::parse` propagates it (via `?`), aborting the parse and returning
an error instead of the statements parsed from the rest of the input. -/
theorem c7_parse_abort_amended (fuel : Nat) (p p' q p4 : ParserState) (e : String) :
    (p.isAtEnd = false → declaration fuel p = some (p', .error e) →
      parse (fuel + 1) p = some (p', .error e)) ∧
    (p.check .FUN = false → p.check .VAR = false →
      statement fuel p = some (q, .error e) →
      synchronize fuel q = some p4 →
      declaration (fuel + 1) p = some (p4, .error e)) := by
  constructor
  · intro hEnd hDecl
    simp only [parse, parseLoop, hEnd, Bool.false_eq_true, if_false, hDecl]
  · intro hFun hVar hStmt hSync
    simp only [declaration, ParserState.matchToken, List.find?, hFun, hVar,
      hStmt, hSync, Bool.false_eq_true, if_false]

/-- Witness for C7's amended statement on the tokens of `; print 1;`. -/
theorem c7_parse_abort_amended_witness :
    parse 21 (initParser c7Tokens) = some (c7AfterSync, .error "Expected expression") ∧
    declaration 21 (initParser c7Tokens) =
      some (c7AfterSync, .error "Expected expression") := by
  have h := c7_parse_abort_amended 20 (initParser c7Tokens) c7AfterSync
    c7AfterError c7AfterSync "Expected expression"
  exact ⟨h.1 rfl rfl, h.2 rfl rfl rfl rfl⟩

/-- C8 counterexample: evaluating
`obj.name = ((obj.other = 1) + (-"s"))` raises a runtime error in the value
subexpression, and the claim's consequent fails: a field of the instance
(`other`, written by the inner set while evaluating the value) has changed,
so it is not true that no field of any instance is written when the value
errors. -/
theorem c8_set_counterexample :
    (acceptExpr 9 c8State c8SetExpr).map
        (fun pr => (pr.2, (pr.1.instances.get? 0).map LoxInstance.fields)) =
      some (.error (.OperatorError 1 "Minus operator used on non-numerical operand"),
        some [("other", .LOX_NUMBER 1)]) := by
  exact rfl

/-- C8 amended: `visit_set_expr` evaluates the object first and then the
value; when the value raises a runtime error the set expression performs no
write of its own - the resulting state is exactly the state left by the
failing value evaluation (in particular the target field `name` is not
written by the set expression; only writes made inside the subexpressions
themselves can have happened); on success the single field write
`name ↦ value` is performed on the target instance and the assigned value
is the result. -/
theorem c8_set_amended (fuel : Nat) (st stA stB stC : InterpState)
    (object value : Expr) (nameTok : Token) (vid : Nat) (iid : Nat)
    (err : InterpreterError) (v : TokenLiteral) :
    (acceptExpr fuel st object = some (stA, .ok (.LOX_INSTANCE iid)) →
      acceptExpr fuel stA value = some (stB, .error err) →
      acceptExpr (fuel + 1) st (.Set object nameTok value vid) =
        some (stB, .error err)) ∧
    (acceptExpr fuel st object = some (stA, .ok (.LOX_INSTANCE iid)) →
      acceptExpr fuel stA value = some (stC, .ok v) →
      acceptExpr (fuel + 1) st (.Set object nameTok value vid) =
        some (instanceSet stC iid nameTok v, .ok v)) := by
  constructor
  · intro h1 h2
    simp only [acceptExpr, h1, h2]
  · intro h1 h2
    simp only [acceptExpr, h1, h2]

/-- Witness for C8's amended statement over the instance heap of
`c8State`. -/
theorem c8_set_amended_witness :
    acceptExpr 3 c8State
        (.Set (.Literal (.LOX_INSTANCE 0)) (identTok "name")
          (.Unary (opTok .MINUS "-") (.Literal (.LOX_STRING "s"))) 20) =
      some (c8State,
        .error (.OperatorError 1 "Minus operator used on non-numerical operand")) ∧
    acceptExpr 3 c8State
        (.Set (.Literal (.LOX_INSTANCE 0)) (identTok "name")
          (.Literal (.LOX_NUMBER 5)) 20) =
      some (instanceSet c8State 0 (identTok "name") (.LOX_NUMBER 5),
        .ok (.LOX_NUMBER 5)) := by
  have h := c8_set_amended 2 c8State c8State c8State c8State
    (.Literal (.LOX_INSTANCE 0))
    (.Unary (opTok .MINUS "-") (.Literal (.LOX_STRING "s")))
    (identTok "name") 20 0
    (.OperatorError 1 "Minus operator used on non-numerical operand")
    (.LOX_NUMBER 5)
  have h2 := c8_set_amended 2 c8State c8State c8State c8State
    (.Literal (.LOX_INSTANCE 0)) (.Literal (.LOX_NUMBER 5))
    (identTok "name") 20 0
    (.OperatorError 1 "Minus operator used on non-numerical operand")
    (.LOX_NUMBER 5)
  exact ⟨h.1 rfl rfl, h2.2 rfl rfl⟩

/-- C9: when the class (chain) of an instance defines method `m` and the
instance has no field `m`, each property access allocates a fresh
`Rc<LoxCallable>`: two successive accesses yield the callable heap indices
`n` and `n + 1`, and comparing the two bound methods with `==` (reference
identity) yields `false`. -/
theorem c9_fresh_bound_methods (st : InterpState) (iid : Nat)
    (inst : LoxInstance) (meth : LoxFunction) (nameTok : Token) (line : Int)
    (h1 : st.instances.get? iid = some inst)
    (h2 : lookupAssoc inst.fields nameTok.lexeme = none)
    (h3 : findMethod st.classes inst.classId nameTok.lexeme = some meth) :
    (instanceGet st iid nameTok).map (fun pr => pr.2) =
      some (.ok (.LOX_CALLABLE st.callables.length)) ∧
    ((instanceGet st iid nameTok).bind
        (fun pr => instanceGet pr.1 iid nameTok)).map (fun pr => pr.2) =
      some (.ok (.LOX_CALLABLE (st.callables.length + 1))) ∧
    binaryOperate ⟨.EQUAL_EQUAL, "==", .LOX_NULL, line⟩
        (.LOX_CALLABLE st.callables.length)
        (.LOX_CALLABLE (st.callables.length + 1)) =
      .ok (.LOX_BOOL false) := by
  refine ⟨?_, ?_, ?_⟩
  · simp only [instanceGet, h1, h2, h3]
    rfl
  · simp only [instanceGet, h1, h2, h3, LoxFunction.bind, Option.some_bind]
    simp only [h1, h2, h3, List.length_append]
    rfl
  · simp [binaryOperate]

/-- Witness for C9 on a concrete instance of class `K` with method `m`. -/
theorem c9_fresh_bound_methods_witness :
    lookupAssoc (⟨0, []⟩ : LoxInstance).fields (identTok "m").lexeme = none ∧
    findMethod c9State.classes 0 (identTok "m").lexeme =
      some ⟨.mk (identTok "m") [] [], 0, false⟩ ∧
    ((instanceGet c9State 0 (identTok "m")).map (fun pr => pr.2) =
      some (.ok (.LOX_CALLABLE 0)) ∧
    ((instanceGet c9State 0 (identTok "m")).bind
        (fun pr => instanceGet pr.1 0 (identTok "m"))).map (fun pr => pr.2) =
      some (.ok (.LOX_CALLABLE 1)) ∧
    binaryOperate ⟨.EQUAL_EQUAL, "==", .LOX_NULL, 1⟩
        (.LOX_CALLABLE 0) (.LOX_CALLABLE 1) = .ok (.LOX_BOOL false)) := by
  exact ⟨rfl, rfl,
    c9_fresh_bound_methods c9State 0 ⟨0, []⟩ ⟨.mk (identTok "m") [] [], 0, false⟩
      (identTok "m") 1 rfl rfl rfl⟩

/-- C10: a second `var` declaration of the same name at the global scope
succeeds with no error and overwrites the previous binding: the resolver's
duplicate-name check is skipped when the scope stack is empty, and
`Environment::define` replaces any existing binding; running the two
declarations leaves the name bound to the second value with no runtime
error. -/
theorem c10_global_redefine (g : List (String × TokenLiteral)) (name : Token)
    (v1 v2 : TokenLiteral) (fuel : Nat) :
    declareVar [] name = ([], []) ∧
    (interpretLoop (fuel + 4) (globalOnlyState g)
        [.Var name (.Literal v1), .Var name (.Literal v2)]).map
        (fun pr => (pr.2,
          (pr.1.envs.get? 0).map (fun fr => lookupAssoc fr.values name.lexeme))) =
      some (none, some (some v2)) := by
  constructor
  · rfl
  · show some ((none : Option InterpreterError),
      some (lookupAssoc (insertAssoc (insertAssoc g name.lexeme v1) name.lexeme v2)
        name.lexeme)) = some (none, some (some v2))
    rw [lookupAssoc_insertAssoc]


/-- `mkChainAux` preserves the number of frames. -/
theorem mkChainAux_length (vss : List (List (String × TokenLiteral))) :
    ∀ j, (mkChainAux j vss).length = vss.length := by
  induction vss with
  | nil => intro j; rfl
  | cons vs rest ih => intro j; simp [mkChainAux, ih]

/-- `mkChain` preserves the number of frames. -/
theorem mkChain_length (vss : List (List (String × TokenLiteral))) :
    (mkChain vss).length = vss.length :=
  mkChainAux_length vss 0

/-- Frame `i` of `mkChainAux j vss` holds the `i`-th contents and links to
the next absolute index unless it is the last frame. -/
theorem mkChainAux_get? (vss : List (List (String × TokenLiteral))) :
    ∀ (j i : Nat),
      (mkChainAux j vss).get? i = (vss.get? i).map (fun vs =>
        (⟨vs, if i + 1 < vss.length then some (j + i + 1) else none⟩ : Frame)) := by
  induction vss with
  | nil => intro j i; simp [mkChainAux]
  | cons vs rest ih =>
    intro j i
    cases i with
    | zero =>
      simp only [mkChainAux, List.get?, Option.map_some']
      cases rest with
      | nil => simp
      | cons r rs => simp
    | succ i =>
      simp only [mkChainAux, List.get?]
      rw [ih (j + 1) i]
      cases h : rest.get? i with
      | none => simp
      | some vs' =>
        simp only [Option.map_some', Option.some.injEq, Frame.mk.injEq, true_and,
          List.length_cons]
        by_cases hlt : i + 1 < rest.length
        · rw [if_pos hlt, if_pos (by omega)]
          congr 1
          omega
        · rw [if_neg hlt, if_neg (by omega)]

/-- Frame `i` of `mkChain vss` holds the `i`-th contents and links to
`i + 1` unless it is the last frame. -/
theorem mkChain_get? (vss : List (List (String × TokenLiteral))) (i : Nat) :
    (mkChain vss).get? i = (vss.get? i).map (fun vs =>
      (⟨vs, if i + 1 < vss.length then some (i + 1) else none⟩ : Frame)) := by
  have h := mkChainAux_get? vss 0 i
  simpa [mkChain] using h

/-- `blankRange` preserves the number of frames. -/
theorem blankRange_length (envs : List Frame) :
    ∀ a b, (blankRange envs a b).length = envs.length := by
  induction envs with
  | nil => intro a b; rfl
  | cons fr rest ih => intro a b; simp [blankRange, ih]

/-- Frame `i` of `blankRange envs a b` is the default frame inside `[a, b)`
and unchanged outside. -/
theorem blankRange_get? (envs : List Frame) :
    ∀ (a b i : Nat),
      (blankRange envs a b).get? i = (envs.get? i).map (fun fr =>
        if a ≤ i ∧ i < b then Frame.defaultFrame else fr) := by
  induction envs with
  | nil => intro a b i; simp [blankRange]
  | cons fr rest ih =>
    intro a b i
    cases i with
    | zero =>
      simp only [blankRange, List.get?, Option.map_some']
      by_cases h : a = 0 ∧ 0 < b
      · rw [if_pos h, if_pos (by omega)]
      · rw [if_neg h, if_neg (by omega)]
    | succ i =>
      simp only [blankRange, List.get?]
      rw [ih (a - 1) (b - 1) i]
      cases h : rest.get? i with
      | none => simp
      | some fr' =>
        simp only [Option.map_some', Option.some.injEq]
        by_cases hc : a ≤ i + 1 ∧ i + 1 < b
        · rw [if_pos (by omega), if_pos hc]
        · rw [if_neg (by omega), if_neg hc]

/-- An empty index range blanks nothing. -/
theorem blankRange_eq_of_le (envs : List Frame) :
    ∀ a b, b ≤ a → blankRange envs a b = envs := by
  induction envs with
  | nil => intro a b _; rfl
  | cons fr rest ih =>
    intro a b h
    simp only [blankRange]
    rw [if_neg (by omega), ih (a - 1) (b - 1) (by omega)]

/-- Blanking one more frame extends the blanked range by one. -/
theorem blankRange_set_defaultFrame (envs : List Frame) :
    ∀ a i, a ≤ i →
      (blankRange envs a i).set i Frame.defaultFrame = blankRange envs a (i + 1) := by
  induction envs with
  | nil => intro a i _; rfl
  | cons fr rest ih =>
    intro a i hai
    cases i with
    | zero =>
      have ha : a = 0 := by omega
      subst ha
      simp [blankRange]
    | succ i =>
      simp only [blankRange, List.set, Nat.add_sub_cancel]
      rw [ih (a - 1) i (by omega)]
      simp

/-- Setting a frame outside the blanked range commutes with blanking. -/
theorem blankRange_set_comm (envs : List Frame) (a b i : Nat) (fr : Frame)
    (h : ¬(a ≤ i ∧ i < b)) :
    (blankRange envs a b).set i fr = blankRange (envs.set i fr) a b := by
  by_cases hlen : i < envs.length
  · apply List.ext_get?_iff.mpr
    intro k
    by_cases hk : k = i
    · subst hk
      rw [List.get?_set_eq_of_lt _ (by rw [blankRange_length]; exact hlen),
        blankRange_get?, List.get?_set_eq_of_lt _ hlen]
      simp [if_neg h]
    · rw [List.get?_set_ne _ _ (fun hh => hk hh.symm), blankRange_get?, blankRange_get?,
        List.get?_set_ne _ _ (fun hh => hk hh.symm)]
  · rw [List.set_eq_of_length_le (by rw [blankRange_length]; omega),
      List.set_eq_of_length_le (by omega)]

/-- Updating the contents of one frame of a chain is a `set` on the built
chain (links depend only on the length, which is preserved). -/
theorem mkChain_set (vss : List (List (String × TokenLiteral))) (j : Nat)
    (x : List (String × TokenLiteral)) (hj : j < vss.length) :
    mkChain (vss.set j x) =
      (mkChain vss).set j
        ⟨x, if j + 1 < vss.length then some (j + 1) else none⟩ := by
  apply List.ext_get?_iff.mpr
  intro k
  by_cases hk : k = j
  · subst hk
    rw [mkChain_get?, List.get?_set_eq_of_lt _ hj,
      List.get?_set_eq_of_lt _ (show k < (mkChain vss).length by
        rw [mkChain_length]; exact hj)]
    simp [List.length_set]
  · rw [mkChain_get?, List.get?_set_ne _ _ (fun hh => hk hh.symm),
      List.get?_set_ne _ _ (fun hh => hk hh.symm), mkChain_get?, List.length_set]

/-- The `ancestor` loop on a linear chain: `k` iterations starting at frame
`i` land on frame `i + k` and extend the destroyed (blanked) region from
`[1, i)` to `[1, i + k)`. -/
theorem ancestorLoop_chain (vss : List (List (String × TokenLiteral))) :
    ∀ (k i : Nat), 1 ≤ i → i + k < vss.length →
      ancestorLoop k (blankRange (mkChain vss) 1 i) i =
        some (blankRange (mkChain vss) 1 (i + k), i + k) := by
  intro k
  induction k with
  | zero => intro i _ _; simp [ancestorLoop]
  | succ k ih =>
    intro i hi hik
    have hvss : ∃ vs, vss.get? i = some vs := by
      cases h : vss.get? i with
      | none => rw [List.get?_eq_none] at h; omega
      | some vs => exact ⟨vs, rfl⟩
    obtain ⟨vs, hvs⟩ := hvss
    have hget : (blankRange (mkChain vss) 1 i).get? i =
        some ⟨vs, some (i + 1)⟩ := by
      rw [blankRange_get?, mkChain_get?, hvs]
      simp only [Option.map_some']
      rw [if_neg (by omega), if_pos (by omega)]
    simp only [ancestorLoop, hget]
    rw [blankRange_set_defaultFrame _ 1 i (by omega)]
    have heq : i + 1 + k = i + (k + 1) := by omega
    have := ih (i + 1) (by omega) (by omega)
    rw [heq] at this
    exact this

/-- `Environment::ancestor` on a linear chain: walking `distance` `d`
returns frame `d` and leaves the strictly intermediate frames `1..d-1`
reset to the default frame. -/
theorem ancestor_chain (vss : List (List (String × TokenLiteral))) (d : Nat)
    (hd : 1 ≤ d) (hlen : d < vss.length) :
    ancestor (mkChain vss) 0 d = some (blankRange (mkChain vss) 1 d, d) := by
  have hvss : ∃ vs, vss.get? 0 = some vs := by
    cases h : vss.get? 0 with
    | none => rw [List.get?_eq_none] at h; omega
    | some vs => exact ⟨vs, rfl⟩
  obtain ⟨vs, hvs⟩ := hvss
  have hget : (mkChain vss).get? 0 = some ⟨vs, some 1⟩ := by
    rw [mkChain_get?, hvs]
    simp only [Option.map_some']
    rw [if_pos (by omega)]
  simp only [ancestor, hget, Option.some_bind]
  have h0 : blankRange (mkChain vss) 1 1 = mkChain vss :=
    blankRange_eq_of_le _ 1 1 (by omega)
  nth_rewrite 1 [← h0]
  have heq : 1 + (d - 1) = d := by omega
  have := ancestorLoop_chain vss (d - 1) 1 (by omega) (by omega)
  rw [heq] at this
  exact this

/-- The chained `Environment::get` on a chain whose frames `[1, d)` were
destroyed, started at frame `j ≥ d`: it returns the first binding of the
name in frames `j, j+1, ...` (spec-side `chainSearch`), or the
`Undefined variable` error when none binds it. -/
theorem envGetLoop_chain (vss : List (List (String × TokenLiteral))) (d : Nat)
    (name : Token) :
    ∀ (fuel j : Nat), d ≤ j → j < vss.length → vss.length - j < fuel →
      envGetLoop fuel (blankRange (mkChain vss) 1 d) j name =
        some (match chainSearch (vss.drop j) name.lexeme with
          | some w => .ok w
          | none => .error (.OperatorError name.line
              ("Undefined variable '" ++ name.lexeme ++ "'"))) := by
  intro fuel
  induction fuel with
  | zero => intro j _ _ h; omega
  | succ n ih =>
    intro j hdj hj hfuel
    have hvs : vss.get? j = some vss[j] := by
      rw [List.get?_eq_getElem?]
      exact List.getElem?_eq_getElem hj
    have hget : (blankRange (mkChain vss) 1 d).get? j =
        some ⟨vss[j], if j + 1 < vss.length then some (j + 1) else none⟩ := by
      rw [blankRange_get?, mkChain_get?, hvs]
      simp only [Option.map_some']
      rw [if_neg (by omega)]
    rw [List.drop_eq_getElem_cons hj]
    simp only [envGetLoop, hget]
    cases hlook : lookupAssoc vss[j] name.lexeme with
    | some v => simp [chainSearch, hlook]
    | none =>
      simp only [chainSearch, hlook]
      by_cases hj1 : j + 1 < vss.length
      · rw [if_pos hj1]
        exact ih (j + 1) (by omega) hj1 (by omega)
      · rw [if_neg hj1]
        have hnil : vss.drop (j + 1) = [] := List.drop_eq_nil_of_le (by omega)
        rw [hnil]
        simp [chainSearch]

/-- The chained `Environment::assign` under the same conditions: it updates
the first frame from `j` onwards that binds the name (spec-side
`chainAssign`), or reports `Undefined variable` (with a trailing period)
leaving the store unchanged. -/
theorem envAssignLoop_chain (vss : List (List (String × TokenLiteral))) (d : Nat)
    (name : Token) (v : TokenLiteral) :
    ∀ (fuel j : Nat), d ≤ j → j < vss.length → vss.length - j < fuel →
      envAssignLoop fuel (blankRange (mkChain vss) 1 d) j name v =
        some (match chainAssign (vss.drop j) name.lexeme v with
          | some suffix => (blankRange (mkChain (vss.take j ++ suffix)) 1 d, .ok ())
          | none => (blankRange (mkChain vss) 1 d,
              .error (.OperatorError name.line
                ("Undefined variable '" ++ name.lexeme ++ "'.")))) := by
  intro fuel
  induction fuel with
  | zero => intro j _ _ h; omega
  | succ n ih =>
    intro j hdj hj hfuel
    have hvs : vss.get? j = some vss[j] := by
      rw [List.get?_eq_getElem?]
      exact List.getElem?_eq_getElem hj
    have hget : (blankRange (mkChain vss) 1 d).get? j =
        some ⟨vss[j], if j + 1 < vss.length then some (j + 1) else none⟩ := by
      rw [blankRange_get?, mkChain_get?, hvs]
      simp only [Option.map_some']
      rw [if_neg (by omega)]
    rw [List.drop_eq_getElem_cons hj]
    simp only [envAssignLoop, hget]
    cases hlook : lookupAssoc vss[j] name.lexeme with
    | some w =>
      simp only [chainAssign, hlook]
      rw [blankRange_set_comm _ 1 d j _ (by omega)]
      rw [← mkChain_set vss j (insertAssoc vss[j] name.lexeme v) hj]
      rw [← List.set_eq_take_cons_drop (insertAssoc vss[j] name.lexeme v) hj]
    | none =>
      simp only [chainAssign, hlook]
      by_cases hj1 : j + 1 < vss.length
      · rw [if_pos hj1]
        refine Eq.trans (ih (j + 1) (by omega) hj1 (by omega)) ?_
        have htake : vss.take (j + 1) = vss.take j ++ [vss[j]] := by
          rw [List.take_succ, List.getElem?_eq_getElem hj]
          rfl
        cases hrec : chainAssign (vss.drop (j + 1)) name.lexeme v with
        | some suffix =>
          simp only [hrec, Option.map_some']
          rw [htake, List.append_assoc]
          rfl
        | none => simp only [hrec, Option.map_none']
      · rw [if_neg hj1]
        have hnil : vss.drop (j + 1) = [] := List.drop_eq_nil_of_le (by omega)
        rw [hnil]
        simp [chainAssign]

/-- C1 (amended): on every linear environment chain and distance
`1 ≤ d < length`, `get_at(d, name)` walks exactly `d` enclosing links and
then performs the chained lookup from frame `d` onwards (searching further
enclosing frames), while resetting every strictly intermediate frame
(`1..d-1`) to an empty, unlinked frame; `get_at(0, name)` is the chained
lookup from the current frame; `assign_at` behaves analogously, updating
the first frame from the target onwards that binds the name. -/
theorem c1_getAt_assignAt_chained (vss : List (List (String × TokenLiteral)))
    (d : Nat) (name : Token) (v : TokenLiteral)
    (hd : 1 ≤ d) (hlen : d < vss.length) :
    envGetAt (mkChain vss) 0 d name =
      some (blankRange (mkChain vss) 1 d,
        match chainSearch (vss.drop d) name.lexeme with
        | some w => .ok w
        | none => .error (.OperatorError name.line
            ("Undefined variable '" ++ name.lexeme ++ "'"))) ∧
    envGetAt (mkChain vss) 0 0 name =
      some (mkChain vss,
        match chainSearch vss name.lexeme with
        | some w => .ok w
        | none => .error (.OperatorError name.line
            ("Undefined variable '" ++ name.lexeme ++ "'"))) ∧
    envAssignAt (mkChain vss) 0 d name v =
      some (match chainAssign (vss.drop d) name.lexeme v with
        | some suffix => (blankRange (mkChain (vss.take d ++ suffix)) 1 d, .ok ())
        | none => (blankRange (mkChain vss) 1 d,
            .error (.OperatorError name.line
              ("Undefined variable '" ++ name.lexeme ++ "'.")))) ∧
    envAssignAt (mkChain vss) 0 0 name v =
      some (match chainAssign vss name.lexeme v with
        | some vss2 => (mkChain vss2, .ok ())
        | none => (mkChain vss,
            .error (.OperatorError name.line
              ("Undefined variable '" ++ name.lexeme ++ "'.")))) := by
  have hanc := ancestor_chain vss d hd hlen
  have hblank0 : blankRange (mkChain vss) 1 0 = mkChain vss :=
    blankRange_eq_of_le _ 1 0 (by omega)
  refine ⟨?_, ?_, ?_, ?_⟩
  · have hget := envGetLoop_chain vss d name
      ((blankRange (mkChain vss) 1 d).length + 1) d (le_refl d) hlen
      (by rw [blankRange_length, mkChain_length]; omega)
    have h1 : envGetAt (mkChain vss) 0 d name =
        (envGet (blankRange (mkChain vss) 1 d) d name).map
          (fun r => (blankRange (mkChain vss) 1 d, r)) := by
      unfold envGetAt
      rw [if_neg (by omega), hanc]
    rw [h1]
    unfold envGet
    rw [hget]
    rfl
  · have hget0 := envGetLoop_chain vss 0 name
      ((blankRange (mkChain vss) 1 0).length + 1) 0 (le_refl 0) (by omega)
      (by rw [blankRange_length, mkChain_length]; omega)
    rw [hblank0] at hget0
    unfold envGetAt envGet
    rw [if_pos rfl, hget0]
    rw [List.drop_zero]
    rfl
  · have hass := envAssignLoop_chain vss d name v
      ((blankRange (mkChain vss) 1 d).length + 1) d (le_refl d) hlen
      (by rw [blankRange_length, mkChain_length]; omega)
    have h1 : envAssignAt (mkChain vss) 0 d name v =
        envAssign (blankRange (mkChain vss) 1 d) d name v := by
      unfold envAssignAt
      rw [if_neg (by omega), hanc]
    rw [h1]
    unfold envAssign
    rw [hass]
  · have hass0 := envAssignLoop_chain vss 0 name v
      ((blankRange (mkChain vss) 1 0).length + 1) 0 (le_refl 0) (by omega)
      (by rw [blankRange_length, mkChain_length]; omega)
    rw [hblank0] at hass0
    unfold envAssignAt envAssign
    rw [if_pos rfl, hass0, List.drop_zero]
    cases hca : chainAssign vss name.lexeme v with
    | some vss2 => simp [hca, blankRange_eq_of_le _ 1 0 (by omega)]
    | none => simp [hca, hblank0]

/-- Witness for C1's amended statement on a three-frame chain with `x`
bound in frames 1 and 2: `get_at(1, x)` and `get_at(0, x)` both find the
value of frame 1 by chained search, and both `assign_at(1, x, 9)` and
`assign_at(0, x, 9)` update frame 1. -/
theorem c1_getAt_assignAt_chained_witness :
    envGetAt (mkChain [[], [("x", .LOX_NUMBER 1)], [("x", .LOX_NUMBER 2)]]) 0 1 (identTok "x") =
      some (mkChain [[], [("x", .LOX_NUMBER 1)], [("x", .LOX_NUMBER 2)]], .ok (.LOX_NUMBER 1)) ∧
    envGetAt (mkChain [[], [("x", .LOX_NUMBER 1)], [("x", .LOX_NUMBER 2)]]) 0 0 (identTok "x") =
      some (mkChain [[], [("x", .LOX_NUMBER 1)], [("x", .LOX_NUMBER 2)]], .ok (.LOX_NUMBER 1)) ∧
    envAssignAt (mkChain [[], [("x", .LOX_NUMBER 1)], [("x", .LOX_NUMBER 2)]]) 0 1
        (identTok "x") (.LOX_NUMBER 9) =
      some (mkChain [[], [("x", .LOX_NUMBER 9)], [("x", .LOX_NUMBER 2)]], .ok ()) ∧
    envAssignAt (mkChain [[], [("x", .LOX_NUMBER 1)], [("x", .LOX_NUMBER 2)]]) 0 0
        (identTok "x") (.LOX_NUMBER 9) =
      some (mkChain [[], [("x", .LOX_NUMBER 9)], [("x", .LOX_NUMBER 2)]], .ok ()) :=
  c1_getAt_assignAt_chained [[], [("x", .LOX_NUMBER 1)], [("x", .LOX_NUMBER 2)]] 1
    (identTok "x") (.LOX_NUMBER 9) (by decide) (by decide)


end RLox
